import Mathlib

/-! Verification of the DebtFree Advisor payoff engine.

A shallow embedding of the financial core of `debt_advisor.py` (the
`DebtFree Advisor v3` Streamlit application): the minimum-payment
calculator (`calc_min` / `amortize`), income normalisation
(`gross_monthly`), the month-by-month payoff simulator (`simulate`) and
the scoring heuristic (`freedom_score`).

Modelling conventions:
* Python floats are modelled by exact rationals (`ℚ`); the source treats
  floating point as an acceptable approximation of real arithmetic.
* The Python dict `DEBT_CFG` keyed by debt-type strings (with an
  `"Other"` fallback for unknown keys) is modelled by a closed
  enumeration `DebtType` and a total configuration function; every
  string key of the source dict has a constructor, and unknown strings
  behave like `.other`, exactly as the `.get(..., DEBT_CFG["Other"])`
  fallback does.
* `total_expenses_monthly()` reads the (constant during one run)
  session-state expense table; it is threaded through as the explicit
  parameter `exp_total`.
* The formatted calendar-date string of a payoff event depends on
  `date.today()` and is presentation-only; events here carry the fields
  the engine computes from its inputs (`name`, `month`, `freed_min`).
* Python's in-place list mutation becomes explicit state passing
  (`SimState`); the `for month in range(1, max_months+1)` loop with its
  `break` becomes structural recursion on the remaining fuel.
* Python's `sorted` is a stable sort; `List.insertionSort` with the
  corresponding `≤`-style relation is also stable, hence produces the
  same list.
-/

namespace DebtAdvisor

/-- The keys of the source's `DEBT_CFG` table (debt categories). -/
inductive DebtType
  | creditCard | carLoan | mortgage | studentLoan | personalLoan | medicalDebt | other
deriving DecidableEq, Repr

/-- One debt record as entered in the sidebar form:
`{"name": …, "type": …, "balance": …, "rate": …, "term_months": …}`. -/
structure Debt where
  name : String
  dtype : DebtType
  balance : ℚ
  rate : ℚ
  term_months : Option ℤ := none
deriving DecidableEq, Repr

instance : Inhabited Debt := ⟨⟨"", .other, 0, 0, none⟩⟩

/-- One row of `DEBT_CFG` (the `hint` string is presentation-only). -/
structure DebtCfg where
  term : ℤ
  min_pct : ℚ
deriving DecidableEq, Repr

/-- `DEBT_CFG`: per-category default term and revolving minimum percentage. -/
def DEBT_CFG : DebtType → DebtCfg
  | .creditCard => ⟨0, 0.02⟩
  | .carLoan => ⟨60, 0⟩
  | .mortgage => ⟨360, 0⟩
  | .studentLoan => ⟨120, 0⟩
  | .personalLoan => ⟨48, 0⟩
  | .medicalDebt => ⟨0, 0.02⟩
  | .other => ⟨60, 0⟩

/-- `amortize(balance, apr, months)`: level-payment annuity formula with the
source's guards `months <= 0 or balance <= 0 → 0.0` and `r == 0 → balance/months`. -/
def amortize (balance apr : ℚ) (months : ℤ) : ℚ :=
  if months ≤ 0 ∨ balance ≤ 0 then 0
  else
    let r := apr / 100 / 12
    if r = 0 then balance / (months : ℚ)
    else balance * r * (1 + r) ^ months.toNat / ((1 + r) ^ months.toNat - 1)

/-- The term used by `calc_min`: `debt.get("term_months") or cfg["term"]`.
Python's `or` falls back to the category default when `term_months` is
`None` *or* `0` (both falsy). -/
def resolvedTerm (d : Debt) : ℤ :=
  match d.term_months with
  | some t => if t = 0 then (DEBT_CFG d.dtype).term else t
  | none => (DEBT_CFG d.dtype).term

/-- `calc_min(debt)`: revolving categories (`min_pct > 0`) get
`max(25.0, balance * min_pct)`; installment categories get the amortized
payment over the resolved term. -/
def calc_min (d : Debt) : ℚ :=
  let cfg := DEBT_CFG d.dtype
  if 0 < cfg.min_pct then max 25 (d.balance * cfg.min_pct)
  else amortize d.balance d.rate (resolvedTerm d)

/-- Income frequencies (keys of `FREQ_MULT`). -/
inductive Freq
  | weekly | biWeekly | monthly | annual
deriving DecidableEq, Repr

/-- `FREQ_MULT = {"Weekly":4.333, "Bi-Weekly":2.167, "Monthly":1.0, "Annual":1/12}`. -/
def FREQ_MULT : Freq → ℚ
  | .weekly => 4.333
  | .biWeekly => 2.167
  | .monthly => 1
  | .annual => 1 / 12

/-- One current income stream. -/
structure Income where
  amount : ℚ
  freq : Freq
deriving DecidableEq, Repr

/-- One scheduled future income stream (`start_month ≥ 1` in the UI). -/
structure FutureIncome where
  amount : ℚ
  freq : Freq
  start_month : ℕ
deriving DecidableEq, Repr

/-- `gross_monthly(incomes, month, future_inc)`: monthly-equivalent sum of the
base incomes plus every future income whose `start_month ≤ month`. -/
def gross_monthly (incomes : List Income) (month : ℕ) (future_inc : List FutureIncome) : ℚ :=
  (incomes.map (fun i => i.amount * FREQ_MULT i.freq)).sum +
    ((future_inc.filter (fun fi => fi.start_month ≤ month)).map
      (fun fi => fi.amount * FREQ_MULT fi.freq)).sum

/-- The two payoff strategies of the radio button. -/
inductive Strategy
  | avalanche | snowball
deriving DecidableEq, Repr

/-- `order = sorted(range(len(debts)), key = -rate / initial balance)`:
avalanche sorts indices by APR descending, snowball by initial balance
ascending; Python's sort is stable, as is `insertionSort`. -/
def strategyOrder (debts : List Debt) : Strategy → List ℕ
  | .avalanche =>
      List.insertionSort (fun i j => (debts.getD j default).rate ≤ (debts.getD i default).rate)
        (List.range debts.length)
  | .snowball =>
      List.insertionSort
        (fun i j => (debts.getD i default).balance ≤ (debts.getD j default).balance)
        (List.range debts.length)

/-- One entry of the returned `timeline`. -/
structure Snapshot where
  month : ℕ
  balances : List ℚ
  total_remaining : ℚ
  total_interest : ℚ
  takehome : ℚ
  expenses : ℚ
deriving DecidableEq, Repr

instance : Inhabited Snapshot := ⟨⟨0, [], 0, 0, 0, 0⟩⟩

/-- One payoff event (the formatted calendar-date string is omitted, see
the module docstring). -/
structure Event where
  name : String
  month : ℕ
  freed_min : ℚ
deriving DecidableEq, Repr

instance : Inhabited Event := ⟨⟨"", 0, 0⟩⟩

/-- The mutable state of one simulation run: the working balance vector,
the (partly recomputed) minimum-payment vector, the cumulative interest
accumulator, the output timeline, and the per-debt payoff-month map. -/
structure SimState where
  balances : List ℚ
  mins : List ℚ
  totalInt : ℚ
  timeline : List Snapshot
  payoff : List (Option ℕ)
deriving DecidableEq, Repr

/-- `active = [i for i in range(len(debts)) if balances[i] > 0.01]`. -/
def activeIdx (n : ℕ) (balances : List ℚ) : List ℕ :=
  (List.range n).filter (fun i => 0.01 < balances.getD i 0)

/-- The revolving-minimum refresh: for each active index whose category has
`min_pct > 0`, set `mins[i] = max(25.0, balances[i] * min_pct)`. -/
def updateMins (debts : List Debt) : List ℕ → List ℚ → List ℚ → List ℚ
  | [], mins, _ => mins
  | i :: rest, mins, balances =>
      let cfg := DEBT_CFG (debts.getD i default).dtype
      updateMins debts rest
        (if 0 < cfg.min_pct then mins.set i (max 25 (balances.getD i 0 * cfg.min_pct)) else mins)
        balances

/-- Interest accrual over the active indices:
`interest = balances[i]*rates[i]; balances[i] += interest; mi += interest`. -/
def accrueGo (rates : List ℚ) : List ℕ → List ℚ → ℚ → List ℚ × ℚ
  | [], balances, mi => (balances, mi)
  | i :: rest, balances, mi =>
      let interest := balances.getD i 0 * rates.getD i 0
      accrueGo rates rest (balances.set i (balances.getD i 0 + interest)) (mi + interest)

/-- The minimum-payment pass, iterating the given index list:
`pay = min(mins[i], balances[i], available); balances[i] -= pay; available -= pay`. -/
def applyMins (mins : List ℚ) : List ℕ → List ℚ → ℚ → List ℚ × ℚ
  | [], balances, available => (balances, available)
  | i :: rest, balances, available =>
      let pay := min (mins.getD i 0) (min (balances.getD i 0) available)
      applyMins mins rest (balances.set i (balances.getD i 0 - pay)) (available - pay)

/-- The extra-payment pass over the strategy ordering:
`if balances[i] > 0.01 and available > 0: pay = min(available, balances[i]); …`. -/
def applyExtra : List ℕ → List ℚ → ℚ → List ℚ × ℚ
  | [], balances, available => (balances, available)
  | i :: rest, balances, available =>
      if 0.01 < balances.getD i 0 ∧ 0 < available then
        let pay := min available (balances.getD i 0)
        applyExtra rest (balances.set i (balances.getD i 0 - pay)) (available - pay)
      else applyExtra rest balances available

/-- The payoff-month scan (`updatePayoff` below), as a recursion over the
payoff list carrying the current index. -/
def updatePayoffGo (month : ℕ) (balances : List ℚ) : ℕ → List (Option ℕ) → List (Option ℕ)
  | _, [] => []
  | i, p :: rest =>
      (match p with
        | none => if balances.getD i 0 < 0.01 then some month else none
        | some m => some m) :: updatePayoffGo month balances (i + 1) rest

/-- The payoff-month scan: `if payoff_ev[i] is None and balances[i] < 0.01:
payoff_ev[i] = month`. -/
def updatePayoff (month : ℕ) (payoff : List (Option ℕ)) (balances : List ℚ) :
    List (Option ℕ) :=
  updatePayoffGo month balances 0 payoff

/-- The per-run constants of `simulate`: its arguments plus the
precomputed monthly `rates` and the strategy `order`. -/
structure SimCtx where
  debts : List Debt
  incomes : List Income
  future_inc : List FutureIncome
  exp_total : ℚ
  extra_pct : ℚ
  rates : List ℚ
  order : List ℕ
deriving Repr

/-- One iteration of the monthly loop body of `simulate`, in source order:
budget derivation, revolving-minimum refresh, interest accrual, minimum
pass over `active` (input index order), extra pass over `order`,
non-negative clamp, payoff scan, snapshot append. -/
def stepMonth (c : SimCtx) (month : ℕ) (s : SimState) : SimState :=
  let active := activeIdx c.debts.length s.balances
  let gm := gross_monthly c.incomes month c.future_inc
  let th := gm * 0.75
  let exp := c.exp_total
  let disposable := max 0 (th - exp)
  let mins1 := updateMins c.debts active s.mins s.balances
  let total_min_active := (active.map (fun i => mins1.getD i 0)).sum
  let extra := max 0 ((disposable - total_min_active) * c.extra_pct)
  let available := min disposable (total_min_active + extra)
  let acc := accrueGo c.rates active s.balances 0
  let totalInt := s.totalInt + acc.2
  let pm := applyMins mins1 active acc.1 available
  let pe := applyExtra c.order pm.1 (max 0 pm.2)
  let bs4 := pe.1.map (fun b => max 0 b)
  { balances := bs4
    mins := mins1
    totalInt := totalInt
    timeline := s.timeline ++
      [{ month := month, balances := bs4, total_remaining := bs4.sum,
         total_interest := totalInt, takehome := th, expenses := exp }]
    payoff := updatePayoff month s.payoff bs4 }

/-- `for month in range(1, max_months+1): active = …; if not active: break; …`
as fuel recursion: `fuel` months remain, `month` is the next month index. -/
def simLoop (c : SimCtx) : ℕ → ℕ → SimState → SimState
  | _, 0, s => s
  | month, fuel + 1, s =>
      if activeIdx c.debts.length s.balances = [] then s
      else simLoop c (month + 1) fuel (stepMonth c month s)

/-- The payoff-event collection at the end of `simulate`: debts in input
order whose payoff month is set (and truthy), then sorted by month
(Python `sorted` is stable, as is `insertionSort`). -/
def collectEvents (debts : List Debt) (payoff : List (Option ℕ)) : List Event :=
  List.insertionSort (fun a b => a.month ≤ b.month)
    ((List.range debts.length).filterMap (fun i =>
      match payoff.getD i none with
      | some m =>
          if m ≠ 0 then
            some { name := (debts.getD i default).name, month := m,
                   freed_min := calc_min (debts.getD i default) }
          else none
      | none => none))

/-- The run constants of `simulate`: the precomputed `rates` list and the
strategy `order` alongside the plain arguments. -/
def simCtxOf (debts : List Debt) (incomes : List Income) (future_inc : List FutureIncome)
    (exp_total extra_pct : ℚ) (strategy : Strategy) : SimCtx :=
  { debts := debts, incomes := incomes, future_inc := future_inc,
    exp_total := exp_total, extra_pct := extra_pct,
    rates := debts.map (fun d => d.rate / 100 / 12),
    order := strategyOrder debts strategy }

/-- The initial loop state of `simulate`: working copies of the balances and
minimum payments, zero cumulative interest, empty timeline, no payoff months. -/
def initState (debts : List Debt) : SimState :=
  { balances := debts.map (·.balance), mins := debts.map calc_min,
    totalInt := 0, timeline := [], payoff := List.replicate debts.length none }

/-- `simulate(debts, incomes, future_inc, extra_pct, strategy, max_months=600)`.
`exp_total` threads the session-state read `total_expenses_monthly()`. -/
def simulate (debts : List Debt) (incomes : List Income) (future_inc : List FutureIncome)
    (exp_total extra_pct : ℚ) (strategy : Strategy) (max_months : ℕ := 600) :
    List Snapshot × List Event :=
  if debts = [] then ([], [])
  else
    let final := simLoop (simCtxOf debts incomes future_inc exp_total extra_pct strategy)
      1 max_months (initState debts)
    (final.timeline, collectEvents debts final.payoff)

/-- Modelled from the spec (for the refinement claim about minimum-payment
order): the same engine, except that the minimum-payment pass iterates
"in the same iteration order as the strategy ordering", i.e. over the
strategy `order` restricted to the active set, instead of over `active`
in input index order. Everything else is identical to `stepMonth`. -/
def stepMonthSpecMins (c : SimCtx) (month : ℕ) (s : SimState) : SimState :=
  let active := activeIdx c.debts.length s.balances
  let gm := gross_monthly c.incomes month c.future_inc
  let th := gm * 0.75
  let exp := c.exp_total
  let disposable := max 0 (th - exp)
  let mins1 := updateMins c.debts active s.mins s.balances
  let total_min_active := (active.map (fun i => mins1.getD i 0)).sum
  let extra := max 0 ((disposable - total_min_active) * c.extra_pct)
  let available := min disposable (total_min_active + extra)
  let acc := accrueGo c.rates active s.balances 0
  let totalInt := s.totalInt + acc.2
  let pm := applyMins mins1 (c.order.filter (· ∈ active)) acc.1 available
  let pe := applyExtra c.order pm.1 (max 0 pm.2)
  let bs4 := pe.1.map (fun b => max 0 b)
  { balances := bs4
    mins := mins1
    totalInt := totalInt
    timeline := s.timeline ++
      [{ month := month, balances := bs4, total_remaining := bs4.sum,
         total_interest := totalInt, takehome := th, expenses := exp }]
    payoff := updatePayoff month s.payoff bs4 }

/-- The loop of `simulateSpecMins`. -/
def simLoopSpecMins (c : SimCtx) : ℕ → ℕ → SimState → SimState
  | _, 0, s => s
  | month, fuel + 1, s =>
      if activeIdx c.debts.length s.balances = [] then s
      else simLoopSpecMins c (month + 1) fuel (stepMonthSpecMins c month s)

/-- Modelled from the spec: `simulate` with the spec's claimed
strategy-ordered minimum-payment pass (see `stepMonthSpecMins`). -/
def simulateSpecMins (debts : List Debt) (incomes : List Income)
    (future_inc : List FutureIncome) (exp_total extra_pct : ℚ) (strategy : Strategy)
    (max_months : ℕ := 600) : List Snapshot × List Event :=
  if debts = [] then ([], [])
  else
    let final := simLoopSpecMins
      (simCtxOf debts incomes future_inc exp_total extra_pct strategy)
      1 max_months (initState debts)
    (final.timeline, collectEvents debts final.payoff)

/-- Python's `round` (round half to even), used by `freedom_score`. -/
def roundHalfEven (q : ℚ) : ℤ :=
  let f := ⌊q⌋
  let frac := q - f
  if frac < 1 / 2 then f
  else if 1 / 2 < frac then f + 1
  else if Even f then f else f + 1

/-- `freedom_score(debts, gross_m)`; `exp_total` threads the session-state
read `total_expenses_monthly()`. Returns the Python `int`. -/
def freedom_score (debts : List Debt) (gross_m : ℚ) (exp_total : ℚ) : ℤ :=
  if debts = [] ∨ gross_m = 0 then 100
  else
    let th := gross_m * 0.75
    let total_min := (debts.map calc_min).sum
    let total_bal := (debts.map (·.balance)).sum
    let dti := if 0 < th then total_min / th else 1
    let expense_ratio := if 0 < th then exp_total / th else 1
    let avg_rate := (debts.map (fun d => d.rate * d.balance)).sum / max total_bal 1
    let score := 100 - dti * 80 - expense_ratio * 40 - avg_rate * 1.5
    max 0 (min 100 (roundHalfEven score))

/-- The cumulative interest reported by the last snapshot of a run
(`tl[-1]["total_interest"]` in the scenario cards); `0` for an empty
timeline. -/
def finalInterest (debts : List Debt) (incomes : List Income) (future_inc : List FutureIncome)
    (exp_total extra_pct : ℚ) (strategy : Strategy) (max_months : ℕ := 600) : ℚ :=
  ((simulate debts incomes future_inc exp_total extra_pct strategy max_months).1.getLastD
    default).total_interest

/-! ## Concrete run instances

`cex*`: the starvation instance of the spec's test scenario family (budget
below the sum of minimums, avalanche ordering).  `e*`: two installment
loans with distinct APRs and a zero extra-payment fraction, run under both
strategies.  `f*`: two revolving debts with a 0.9 extra-payment fraction,
run under both strategies.  `g*`: two revolving debts with nearly equal
APRs and a 0.7 extra-payment fraction, run under both strategies.
`z*`: a run containing a debt already below
the payoff threshold.  `n*`: a run containing a debt with a negative
input balance.  `i*`: an infeasible single credit card whose minimum
payment never covers its monthly interest. -/

def cexDebts : List Debt :=
  [⟨"A", .creditCard, 1000, 10, none⟩, ⟨"B", .creditCard, 1000, 24, none⟩]

def cexIncs : List Income := [⟨40, .monthly⟩]

def eDebts : List Debt := [⟨"A", .carLoan, 600, 12, some 3⟩, ⟨"B", .carLoan, 400, 6, some 2⟩]

def eIncs : List Income := [⟨1000, .monthly⟩]

def fDebts : List Debt := [⟨"A", .creditCard, 2000, 24, none⟩, ⟨"B", .creditCard, 800, 6, none⟩]

def fIncs : List Income := [⟨2000, .monthly⟩]

def zDebts : List Debt :=
  [⟨"A", .creditCard, 100, 12, none⟩, ⟨"Z", .creditCard, 1/200, 0, none⟩]

def nDebts : List Debt :=
  [⟨"A", .creditCard, 100, 12, none⟩, ⟨"N", .creditCard, -5, 10, none⟩]

def zIncs : List Income := [⟨400, .monthly⟩]

def iDebts : List Debt := [⟨"I", .creditCard, 10000, 30, none⟩]

def iIncs : List Income := [⟨4000, .monthly⟩]

def iCtx : SimCtx := ⟨iDebts, iIncs, [], 0, 0, [1/40], [0]⟩

/-- Run context of the `xA` run. -/
def xAc : SimCtx := ⟨cexDebts, cexIncs, [], 0, 0, [(1 : ℚ)/120, (1 : ℚ)/50], [1, 0]⟩

/-- Initial state of the `xA` run. -/
def xAs0 : SimState :=
  ⟨[1000, 1000], [25, 25], 0,
    [],
    [none, none]⟩

/-- Month 1 state of the `xA` run. -/
def xAs1 : SimState :=
  ⟨[(2950 : ℚ)/3, 1015], [25, 25], (85 : ℚ)/3,
    [⟨1, [(2950 : ℚ)/3, 1015], (5995 : ℚ)/3, (85 : ℚ)/3, 30, 0⟩],
    [none, none]⟩

/-- Month 2 state of the `xA` run. -/
def xAs2 : SimState :=
  ⟨[(34795 : ℚ)/36, (10303 : ℚ)/10], [25, 25], (10229 : ℚ)/180,
    [⟨1, [(2950 : ℚ)/3, 1015], (5995 : ℚ)/3, (85 : ℚ)/3, 30, 0⟩,
     ⟨2, [(34795 : ℚ)/36, (10303 : ℚ)/10], (359429 : ℚ)/180, (10229 : ℚ)/180, 30, 0⟩],
    [none, none]⟩

/-- Run context of the `xS` run. -/
def xSc : SimCtx := ⟨cexDebts, cexIncs, [], 0, 0, [(1 : ℚ)/120, (1 : ℚ)/50], [1, 0]⟩

/-- Initial state of the `xS` run. -/
def xSs0 : SimState :=
  ⟨[1000, 1000], [25, 25], 0,
    [],
    [none, none]⟩

/-- Month 1 state of the `xS` run. -/
def xSs1 : SimState :=
  ⟨[(3010 : ℚ)/3, 995], [25, 25], (85 : ℚ)/3,
    [⟨1, [(3010 : ℚ)/3, 995], (5995 : ℚ)/3, (85 : ℚ)/3, 30, 0⟩],
    [none, none]⟩

/-- Run context of the `eA` run. -/
def eAc : SimCtx := ⟨eDebts, eIncs, [], 0, 0, [(1 : ℚ)/100, (1 : ℚ)/200], [0, 1]⟩

/-- Initial state of the `eA` run. -/
def eAs0 : SimState :=
  ⟨[600, 400], [(6181806 : ℚ)/30301, (80802 : ℚ)/401], 0,
    [],
    [none, none]⟩

/-- Month 1 state of the `eA` run. -/
def eAs1 : SimState :=
  ⟨[(12180600 : ℚ)/30301, (80400 : ℚ)/401], [(6181806 : ℚ)/30301, (80802 : ℚ)/401], 8,
    [⟨1, [(12180600 : ℚ)/30301, (80400 : ℚ)/401], (7320621000 : ℚ)/12150701, 8, 750, 0⟩],
    [none, none]⟩

/-- Month 2 state of the `eA` run. -/
def eAs2 : SimState :=
  ⟨[(6120600 : ℚ)/30301, 0], [(6181806 : ℚ)/30301, (80802 : ℚ)/401], (158230816 : ℚ)/12150701,
    [⟨1, [(12180600 : ℚ)/30301, (80400 : ℚ)/401], (7320621000 : ℚ)/12150701, 8, 750, 0⟩,
     ⟨2, [(6120600 : ℚ)/30301, 0], (6120600 : ℚ)/30301, (158230816 : ℚ)/12150701, 750, 0⟩],
    [none, some 2]⟩

/-- Month 3 state of the `eA` run. -/
def eAs3 : SimState :=
  ⟨[0, 0], [(6181806 : ℚ)/30301, (80802 : ℚ)/401], (182774422 : ℚ)/12150701,
    [⟨1, [(12180600 : ℚ)/30301, (80400 : ℚ)/401], (7320621000 : ℚ)/12150701, 8, 750, 0⟩,
     ⟨2, [(6120600 : ℚ)/30301, 0], (6120600 : ℚ)/30301, (158230816 : ℚ)/12150701, 750, 0⟩,
     ⟨3, [0, 0], 0, (182774422 : ℚ)/12150701, 750, 0⟩],
    [some 3, some 2]⟩

/-- Run context of the `eS` run. -/
def eSc : SimCtx := ⟨eDebts, eIncs, [], 0, 0, [(1 : ℚ)/100, (1 : ℚ)/200], [1, 0]⟩

/-- Initial state of the `eS` run. -/
def eSs0 : SimState :=
  ⟨[600, 400], [(6181806 : ℚ)/30301, (80802 : ℚ)/401], 0,
    [],
    [none, none]⟩

/-- Month 1 state of the `eS` run. -/
def eSs1 : SimState :=
  ⟨[(12180600 : ℚ)/30301, (80400 : ℚ)/401], [(6181806 : ℚ)/30301, (80802 : ℚ)/401], 8,
    [⟨1, [(12180600 : ℚ)/30301, (80400 : ℚ)/401], (7320621000 : ℚ)/12150701, 8, 750, 0⟩],
    [none, none]⟩

/-- Month 2 state of the `eS` run. -/
def eSs2 : SimState :=
  ⟨[(6120600 : ℚ)/30301, 0], [(6181806 : ℚ)/30301, (80802 : ℚ)/401], (158230816 : ℚ)/12150701,
    [⟨1, [(12180600 : ℚ)/30301, (80400 : ℚ)/401], (7320621000 : ℚ)/12150701, 8, 750, 0⟩,
     ⟨2, [(6120600 : ℚ)/30301, 0], (6120600 : ℚ)/30301, (158230816 : ℚ)/12150701, 750, 0⟩],
    [none, some 2]⟩

/-- Month 3 state of the `eS` run. -/
def eSs3 : SimState :=
  ⟨[0, 0], [(6181806 : ℚ)/30301, (80802 : ℚ)/401], (182774422 : ℚ)/12150701,
    [⟨1, [(12180600 : ℚ)/30301, (80400 : ℚ)/401], (7320621000 : ℚ)/12150701, 8, 750, 0⟩,
     ⟨2, [(6120600 : ℚ)/30301, 0], (6120600 : ℚ)/30301, (158230816 : ℚ)/12150701, 750, 0⟩,
     ⟨3, [0, 0], 0, (182774422 : ℚ)/12150701, 750, 0⟩],
    [some 3, some 2]⟩

/-- Run context of the `fA` run. -/
def fAc : SimCtx := ⟨fDebts, fIncs, [], 0, (9 : ℚ)/10, [(1 : ℚ)/50, (1 : ℚ)/200], [0, 1]⟩

/-- Initial state of the `fA` run. -/
def fAs0 : SimState :=
  ⟨[2000, 800], [40, 25], 0,
    [],
    [none, none]⟩

/-- Month 1 state of the `fA` run. -/
def fAs1 : SimState :=
  ⟨[(1417 : ℚ)/2, 779], [40, 25], 44,
    [⟨1, [(1417 : ℚ)/2, 779], (2975 : ℚ)/2, 44, 1500, 0⟩],
    [none, none]⟩

/-- Month 2 state of the `fA` run. -/
def fAs2 : SimState :=
  ⟨[0, (30113 : ℚ)/200], [25, 25], (12413 : ℚ)/200,
    [⟨1, [(1417 : ℚ)/2, 779], (2975 : ℚ)/2, 44, 1500, 0⟩,
     ⟨2, [0, (30113 : ℚ)/200], (30113 : ℚ)/200, (12413 : ℚ)/200, 1500, 0⟩],
    [some 2, none]⟩

/-- Month 3 state of the `fA` run. -/
def fAs3 : SimState :=
  ⟨[0, 0], [25, 25], (2512713 : ℚ)/40000,
    [⟨1, [(1417 : ℚ)/2, 779], (2975 : ℚ)/2, 44, 1500, 0⟩,
     ⟨2, [0, (30113 : ℚ)/200], (30113 : ℚ)/200, (12413 : ℚ)/200, 1500, 0⟩,
     ⟨3, [0, 0], 0, (2512713 : ℚ)/40000, 1500, 0⟩],
    [some 2, some 3]⟩

/-- Run context of the `fS` run. -/
def fSc : SimCtx := ⟨fDebts, fIncs, [], 0, (9 : ℚ)/10, [(1 : ℚ)/50, (1 : ℚ)/200], [1, 0]⟩

/-- Initial state of the `fS` run. -/
def fSs0 : SimState :=
  ⟨[2000, 800], [40, 25], 0,
    [],
    [none, none]⟩

/-- Month 1 state of the `fS` run. -/
def fSs1 : SimState :=
  ⟨[(2975 : ℚ)/2, 0], [40, 25], 44,
    [⟨1, [(2975 : ℚ)/2, 0], (2975 : ℚ)/2, 44, 1500, 0⟩],
    [none, some 1]⟩

/-- Month 2 state of the `fS` run. -/
def fSs2 : SimState :=
  ⟨[(6571 : ℚ)/40, 0], [(119 : ℚ)/4, 25], (295 : ℚ)/4,
    [⟨1, [(2975 : ℚ)/2, 0], (2975 : ℚ)/2, 44, 1500, 0⟩,
     ⟨2, [(6571 : ℚ)/40, 0], (6571 : ℚ)/40, (295 : ℚ)/4, 1500, 0⟩],
    [none, some 1]⟩

/-- Month 3 state of the `fS` run. -/
def fSs3 : SimState :=
  ⟨[0, 0], [25, 25], (154071 : ℚ)/2000,
    [⟨1, [(2975 : ℚ)/2, 0], (2975 : ℚ)/2, 44, 1500, 0⟩,
     ⟨2, [(6571 : ℚ)/40, 0], (6571 : ℚ)/40, (295 : ℚ)/4, 1500, 0⟩,
     ⟨3, [0, 0], 0, (154071 : ℚ)/2000, 1500, 0⟩],
    [some 3, some 1]⟩

def gDebts : List Debt :=
  [⟨"G1", .creditCard, 1600, 2201/100, none⟩, ⟨"G2", .creditCard, 900, 22, none⟩]

def gIncs : List Income := [⟨5200/3, .monthly⟩]

/-- Run context of the `gA` run. -/
def gAc : SimCtx :=
  ⟨gDebts, gIncs, [], 0, (7 : ℚ)/10, [(2201 : ℚ)/120000, (11 : ℚ)/600], [0, 1]⟩

/-- Run context of the `gS` run. -/
def gSc : SimCtx :=
  ⟨gDebts, gIncs, [], 0, (7 : ℚ)/10, [(2201 : ℚ)/120000, (11 : ℚ)/600], [1, 0]⟩

/-- Initial state of the `gA` run. -/
def gAs0 : SimState :=
  ⟨[1600, 900], [32, 25], 0,
    [],
    [none, none]⟩

/-- Month 1 state of the `gA` run. -/
def gAs1 : SimState :=
  ⟨[(109087 : ℚ)/150, (1783 : ℚ)/2], [32, 25], (6877 : ℚ)/150,
    [⟨1, [(109087 : ℚ)/150, (1783 : ℚ)/2], (121406 : ℚ)/75, (6877 : ℚ)/150, 1300, 0⟩],
    [none, none]⟩

/-- Month 2 state of the `gA` run. -/
def gAs2 : SimState :=
  ⟨[0, (13021735487 : ℚ)/18000000], [25, 25], (1359535487 : ℚ)/18000000,
    [⟨1, [(109087 : ℚ)/150, (1783 : ℚ)/2], (121406 : ℚ)/75, (6877 : ℚ)/150, 1300, 0⟩,
     ⟨2, [0, (13021735487 : ℚ)/18000000], (13021735487 : ℚ)/18000000, (1359535487 : ℚ)/18000000, 1300, 0⟩],
    [some 2, none]⟩

/-- Month 3 state of the `gA` run. -/
def gAs3 : SimState :=
  ⟨[0, 0], [25, 25], (958960382557 : ℚ)/10800000000,
    [⟨1, [(109087 : ℚ)/150, (1783 : ℚ)/2], (121406 : ℚ)/75, (6877 : ℚ)/150, 1300, 0⟩,
     ⟨2, [0, (13021735487 : ℚ)/18000000], (13021735487 : ℚ)/18000000, (1359535487 : ℚ)/18000000, 1300, 0⟩,
     ⟨3, [0, 0], 0, (958960382557 : ℚ)/10800000000, 1300, 0⟩],
    [some 2, some 3]⟩

/-- Initial state of the `gS` run. -/
def gSs0 : SimState :=
  ⟨[1600, 900], [32, 25], 0,
    [],
    [none, none]⟩

/-- Month 1 state of the `gS` run. -/
def gSs1 : SimState :=
  ⟨[(119801 : ℚ)/75, (107 : ℚ)/5], [32, 25], (6877 : ℚ)/150,
    [⟨1, [(119801 : ℚ)/75, (107 : ℚ)/5], (121406 : ℚ)/75, (6877 : ℚ)/150, 1300, 0⟩],
    [none, none]⟩

/-- Month 2 state of the `gS` run. -/
def gSs2 : SimState :=
  ⟨[(6492176281 : ℚ)/9000000, 0], [(119801 : ℚ)/3750, 25], (679833001 : ℚ)/9000000,
    [⟨1, [(119801 : ℚ)/75, (107 : ℚ)/5], (121406 : ℚ)/75, (6877 : ℚ)/150, 1300, 0⟩,
     ⟨2, [(6492176281 : ℚ)/9000000, 0], (6492176281 : ℚ)/9000000, (679833001 : ℚ)/9000000, 1300, 0⟩],
    [none, some 2]⟩

/-- Month 3 state of the `gS` run. -/
def gSs3 : SimState :=
  ⟨[0, 0], [25, 25], (95869240114481 : ℚ)/1080000000000,
    [⟨1, [(119801 : ℚ)/75, (107 : ℚ)/5], (121406 : ℚ)/75, (6877 : ℚ)/150, 1300, 0⟩,
     ⟨2, [(6492176281 : ℚ)/9000000, 0], (6492176281 : ℚ)/9000000, (679833001 : ℚ)/9000000, 1300, 0⟩,
     ⟨3, [0, 0], 0, (95869240114481 : ℚ)/1080000000000, 1300, 0⟩],
    [some 3, some 2]⟩

/-- Run context of the `zA` run. -/
def zAc : SimCtx := ⟨zDebts, zIncs, [], 0, 0, [(1 : ℚ)/100, 0], [0, 1]⟩

/-- Initial state of the `zA` run. -/
def zAs0 : SimState :=
  ⟨[100, (1 : ℚ)/200], [25, 25], 0,
    [],
    [none, none]⟩

/-- Month 1 state of the `zA` run. -/
def zAs1 : SimState :=
  ⟨[76, (1 : ℚ)/200], [25, 25], 1,
    [⟨1, [76, (1 : ℚ)/200], (15201 : ℚ)/200, 1, 300, 0⟩],
    [none, some 1]⟩

/-- Month 2 state of the `zA` run. -/
def zAs2 : SimState :=
  ⟨[(1294 : ℚ)/25, (1 : ℚ)/200], [25, 25], (44 : ℚ)/25,
    [⟨1, [76, (1 : ℚ)/200], (15201 : ℚ)/200, 1, 300, 0⟩,
     ⟨2, [(1294 : ℚ)/25, (1 : ℚ)/200], (10353 : ℚ)/200, (44 : ℚ)/25, 300, 0⟩],
    [none, some 1]⟩

/-- Run context of the `nA` run. -/
def nAc : SimCtx := ⟨nDebts, zIncs, [], 0, 0, [(1 : ℚ)/100, (1 : ℚ)/120], [0, 1]⟩

/-- Initial state of the `nA` run. -/
def nAs0 : SimState :=
  ⟨[100, (-5 : ℚ)], [25, 25], 0,
    [],
    [none, none]⟩

/-- Month 1 state of the `nA` run. -/
def nAs1 : SimState :=
  ⟨[76, 0], [25, 25], 1,
    [⟨1, [76, 0], 76, 1, 300, 0⟩],
    [none, some 1]⟩

/-- Initial state of the `i` run. -/
def is0 : SimState :=
  ⟨[10000], [200], 0,
    [],
    [none]⟩

/-- Month 1 state of the `i` run. -/
def is1 : SimState :=
  ⟨[10050], [200], 250,
    [⟨1, [10050], 10050, 250, 3000, 0⟩],
    [none]⟩

/-- Month 2 state of the `i` run. -/
def is2 : SimState :=
  ⟨[(40401 : ℚ)/4], [201], (2005 : ℚ)/4,
    [⟨1, [10050], 10050, 250, 3000, 0⟩,
     ⟨2, [(40401 : ℚ)/4], (40401 : ℚ)/4, (2005 : ℚ)/4, 3000, 0⟩],
    [none]⟩

/-! ## Loop-unfolding lemmas -/

lemma simLoop_zero (c : SimCtx) (month : ℕ) (s : SimState) : simLoop c month 0 s = s := rfl

lemma simLoop_go (c : SimCtx) (month fuel : ℕ) (s : SimState)
    (h : activeIdx c.debts.length s.balances ≠ []) :
    simLoop c month (fuel + 1) s = simLoop c (month + 1) fuel (stepMonth c month s) := by
  simp [simLoop, h]

lemma simLoop_stop (c : SimCtx) (month fuel : ℕ) (s : SimState)
    (h : activeIdx c.debts.length s.balances = []) :
    simLoop c month (fuel + 1) s = s := by
  simp [simLoop, h]

lemma simLoopSpecMins_zero (c : SimCtx) (month : ℕ) (s : SimState) :
    simLoopSpecMins c month 0 s = s := rfl

lemma simLoopSpecMins_go (c : SimCtx) (month fuel : ℕ) (s : SimState)
    (h : activeIdx c.debts.length s.balances ≠ []) :
    simLoopSpecMins c month (fuel + 1) s =
      simLoopSpecMins c (month + 1) fuel (stepMonthSpecMins c month s) := by
  simp [simLoopSpecMins, h]

lemma simulate_of_ne (debts : List Debt) (incomes : List Income)
    (future_inc : List FutureIncome) (exp_total extra_pct : ℚ) (strategy : Strategy)
    (max_months : ℕ) (h : debts ≠ []) :
    simulate debts incomes future_inc exp_total extra_pct strategy max_months =
      ((simLoop (simCtxOf debts incomes future_inc exp_total extra_pct strategy)
          1 max_months (initState debts)).timeline,
        collectEvents debts
          (simLoop (simCtxOf debts incomes future_inc exp_total extra_pct strategy)
            1 max_months (initState debts)).payoff) := by
  simp [simulate, h]

/-! ## Generic list helpers -/

lemma getD_set_self {α : Type} (l : List α) (i : ℕ) (a d : α) (h : i < l.length) :
    (l.set i a).getD i d = a := by
  simp [List.getD_eq_getElem?_getD, List.getElem?_set_self h]

lemma getD_set_ne {α : Type} (l : List α) (i j : ℕ) (a d : α) (h : i ≠ j) :
    (l.set i a).getD j d = l.getD j d := by
  simp [List.getD_eq_getElem?_getD, List.getElem?_set_ne h]

/-! ## Properties of the active-index list -/

lemma mem_activeIdx {n : ℕ} {balances : List ℚ} {i : ℕ} :
    i ∈ activeIdx n balances ↔ i < n ∧ 0.01 < balances.getD i 0 := by
  simp [activeIdx, List.mem_filter, List.mem_range]

lemma activeIdx_pairwise (n : ℕ) (balances : List ℚ) :
    (activeIdx n balances).Pairwise (· < ·) :=
  ((List.pairwise_lt_range n).sublist (List.filter_sublist _)).imp id

lemma activeIdx_nodup (n : ℕ) (balances : List ℚ) : (activeIdx n balances).Nodup :=
  (activeIdx_pairwise n balances).imp Nat.ne_of_lt

/-! ## Properties of the interest-accrual pass -/

lemma accrueGo_fst_length (rates : List ℚ) (l : List ℕ) (balances : List ℚ) (mi : ℚ) :
    ((accrueGo rates l balances mi).1).length = balances.length := by
  induction l generalizing balances mi with
  | nil => rfl
  | cons j rest ih => rw [accrueGo, ih, List.length_set]

lemma accrueGo_getD_of_not_mem (rates : List ℚ) (l : List ℕ) (balances : List ℚ) (mi : ℚ)
    (i : ℕ) (h : i ∉ l) :
    ((accrueGo rates l balances mi).1).getD i 0 = balances.getD i 0 := by
  induction l generalizing balances mi with
  | nil => rfl
  | cons j rest ih =>
    simp only [List.mem_cons, not_or] at h
    rw [accrueGo, ih _ _ h.2, getD_set_ne _ _ _ _ _ (fun hji => h.1 hji.symm)]

lemma accrueGo_getD_of_mem (rates : List ℚ) (l : List ℕ) (balances : List ℚ) (mi : ℚ)
    (i : ℕ) (hl : l.Nodup) (h : i ∈ l) (hi : i < balances.length) :
    ((accrueGo rates l balances mi).1).getD i 0 =
      balances.getD i 0 * (1 + rates.getD i 0) := by
  induction l generalizing balances mi with
  | nil => simp at h
  | cons j rest ih =>
    rw [accrueGo]
    rcases List.mem_cons.mp h with rfl | hmem
    · rw [accrueGo_getD_of_not_mem _ _ _ _ _ (List.nodup_cons.mp hl).1,
        getD_set_self _ _ _ _ hi]
      ring
    · have hji : j ≠ i := by
        rintro rfl; exact (List.nodup_cons.mp hl).1 hmem
      rw [ih _ _ (List.nodup_cons.mp hl).2 hmem (by simpa using hi),
        getD_set_ne _ _ _ _ _ hji]

lemma accrueGo_snd (rates : List ℚ) (l : List ℕ) (balances : List ℚ) (mi : ℚ)
    (hl : l.Nodup) :
    (accrueGo rates l balances mi).2 =
      mi + (l.map (fun i => balances.getD i 0 * rates.getD i 0)).sum := by
  induction l generalizing balances mi with
  | nil => simp [accrueGo]
  | cons j rest ih =>
    rw [accrueGo, ih _ _ (List.nodup_cons.mp hl).2, List.map_cons, List.sum_cons]
    have hcongr : rest.map
        (fun i => (balances.set j (balances.getD j 0 + balances.getD j 0 * rates.getD j 0)).getD
          i 0 * rates.getD i 0) =
        rest.map (fun i => balances.getD i 0 * rates.getD i 0) := by
      refine List.map_congr_left (fun i hmem => ?_)
      have hji : j ≠ i := by
        rintro rfl; exact (List.nodup_cons.mp hl).1 hmem
      rw [getD_set_ne _ _ _ _ _ hji]
    rw [hcongr]; ring

/-! ## Properties of the minimum-payment pass -/

lemma applyMins_fst_length (mins : List ℚ) (l : List ℕ) (balances : List ℚ) (a : ℚ) :
    ((applyMins mins l balances a).1).length = balances.length := by
  induction l generalizing balances a with
  | nil => rfl
  | cons j rest ih => rw [applyMins, ih, List.length_set]

lemma applyMins_getD_of_not_mem (mins : List ℚ) (l : List ℕ) (balances : List ℚ) (a : ℚ)
    (i : ℕ) (h : i ∉ l) :
    ((applyMins mins l balances a).1).getD i 0 = balances.getD i 0 := by
  induction l generalizing balances a with
  | nil => rfl
  | cons j rest ih =>
    simp only [List.mem_cons, not_or] at h
    rw [applyMins, ih _ _ h.2, getD_set_ne _ _ _ _ _ (fun hji => h.1 hji.symm)]

/-- Bundled facts about one minimum pass under well-formed inputs: the leftover
budget stays in `[0, a]`, and every visited debt pays some `p` with
`0 ≤ p ≤ min (its min) (its balance)` and `p` no more than the initial budget. -/
lemma applyMins_spec (mins : List ℚ) (l : List ℕ) (balances : List ℚ) (a : ℚ)
    (hl : l.Nodup) (hms : ∀ k ∈ l, 0 ≤ mins.getD k 0) (hbs : ∀ k ∈ l, 0 ≤ balances.getD k 0)
    (hlen : ∀ k ∈ l, k < balances.length) (ha : 0 ≤ a) :
    (0 ≤ (applyMins mins l balances a).2 ∧ (applyMins mins l balances a).2 ≤ a) ∧
      ∀ i ∈ l, ∃ p, 0 ≤ p ∧ p ≤ min (mins.getD i 0) (balances.getD i 0) ∧ p ≤ a ∧
        ((applyMins mins l balances a).1).getD i 0 = balances.getD i 0 - p := by
  induction l generalizing balances a with
  | nil => exact ⟨⟨ha, le_refl a⟩, by simp⟩
  | cons j rest ih =>
    have hmsj : 0 ≤ mins.getD j 0 := hms j (List.mem_cons_self j rest)
    have hbsj : 0 ≤ balances.getD j 0 := hbs j (List.mem_cons_self j rest)
    have hjrest : j ∉ rest := (List.nodup_cons.mp hl).1
    set pay := min (mins.getD j 0) (min (balances.getD j 0) a) with hpay
    have hpay0 : 0 ≤ pay := le_min hmsj (le_min hbsj ha)
    have hpaya : pay ≤ a := (min_le_right _ _).trans (min_le_right _ _)
    set bs' := balances.set j (balances.getD j 0 - pay) with hbs'
    have hbs'val : ∀ k ∈ rest, bs'.getD k 0 = balances.getD k 0 := fun k hk =>
      getD_set_ne _ _ _ _ _ (fun hjk => hjrest (hjk ▸ hk))
    have ihres := ih bs' (a - pay) (List.nodup_cons.mp hl).2
      (fun k hk => hms k (List.mem_cons_of_mem _ hk))
      (fun k hk => (hbs'val k hk) ▸ hbs k (List.mem_cons_of_mem _ hk))
      (fun k hk => by rw [hbs', List.length_set]; exact hlen k (List.mem_cons_of_mem _ hk))
      (by linarith)
    have happ : applyMins mins (j :: rest) balances a = applyMins mins rest bs' (a - pay) := by
      rw [applyMins]
    refine ⟨⟨happ ▸ ihres.1.1, happ ▸ ihres.1.2.trans (by linarith)⟩, ?_⟩
    intro i hi
    rcases List.mem_cons.mp hi with rfl | hmem
    · refine ⟨pay, hpay0, le_min (min_le_left _ _)
        ((min_le_right _ _).trans (min_le_left _ _)), hpaya, ?_⟩
      rw [happ, applyMins_getD_of_not_mem _ _ _ _ _ hjrest, hbs',
        getD_set_self _ _ _ _ (hlen i (List.mem_cons_self i rest))]
    · obtain ⟨p, hp0, hple, hpa, hres⟩ := ihres.2 i hmem
      exact ⟨p, hp0, (hbs'val i hmem) ▸ hple, by linarith, by rw [happ, hres, hbs'val i hmem]⟩

/-- In one minimum pass, a debt that receives a positive payment implies every
debt earlier in the iteration list received its full demand
`min(required minimum, balance)`: the pass is a greedy allocator in list
order (the starvation behaviour under an insufficient budget). -/
lemma applyMins_greedy (mins : List ℚ) (l₁ : List ℕ) (i : ℕ) (l₂ : List ℕ)
    (balances : List ℚ) (a : ℚ) (hl : (l₁ ++ i :: l₂).Nodup)
    (hms : ∀ k ∈ l₁ ++ i :: l₂, 0 ≤ mins.getD k 0)
    (hbs : ∀ k ∈ l₁ ++ i :: l₂, 0 ≤ balances.getD k 0)
    (hlen : ∀ k ∈ l₁ ++ i :: l₂, k < balances.length) (ha : 0 ≤ a)
    (j : ℕ) (hj : j ∈ l₂)
    (hpos : 0 < balances.getD j 0 -
      ((applyMins mins (l₁ ++ i :: l₂) balances a).1).getD j 0) :
    ((applyMins mins (l₁ ++ i :: l₂) balances a).1).getD i 0 =
      balances.getD i 0 - min (mins.getD i 0) (balances.getD i 0) := by
  induction l₁ generalizing balances a with
  | nil =>
    simp only [List.nil_append] at hl hms hbs hlen hpos ⊢
    have hirest : i ∉ l₂ := (List.nodup_cons.mp hl).1
    have hij : i ≠ j := by rintro rfl; exact hirest hj
    set pay := min (mins.getD i 0) (min (balances.getD i 0) a) with hpaydef
    set bs' := balances.set i (balances.getD i 0 - pay) with hbs'
    have happ : applyMins mins (i :: l₂) balances a = applyMins mins l₂ bs' (a - pay) := by
      rw [applyMins]
    have hbs'val : ∀ k ∈ l₂, bs'.getD k 0 = balances.getD k 0 := fun k hk =>
      getD_set_ne _ _ _ _ _ (fun hik => hirest (hik ▸ hk))
    -- the later debt j received p > 0, and p is bounded by the leftover budget
    obtain ⟨p, hp0, hple, hpa, hres⟩ :=
      (applyMins_spec mins l₂ bs' (a - pay) (List.nodup_cons.mp hl).2
        (fun k hk => hms k (List.mem_cons_of_mem _ hk))
        (fun k hk => (hbs'val k hk) ▸ hbs k (List.mem_cons_of_mem _ hk))
        (fun k hk => by rw [hbs', List.length_set]; exact hlen k (List.mem_cons_of_mem _ hk))
        (by
          have : pay ≤ a := (min_le_right _ _).trans (min_le_right _ _)
          linarith)).2 j hj
    have hppos : 0 < p := by
      have := hbs'val j hj
      rw [happ, hres, this] at hpos
      linarith
    have hpaylt : pay < a := by
      have : p ≤ a - pay := hpa
      linarith
    have hpayeq : pay = min (mins.getD i 0) (balances.getD i 0) := by
      have h1 : pay = min (min (mins.getD i 0) (balances.getD i 0)) a := (min_assoc _ _ _).symm
      rcases le_total (min (mins.getD i 0) (balances.getD i 0)) a with h | h
      · rw [h1, min_eq_left h]
      · exfalso
        rw [h1, min_eq_right h] at hpaylt
        exact lt_irrefl _ hpaylt
    rw [happ, applyMins_getD_of_not_mem _ _ _ _ _ hirest, hbs',
      getD_set_self _ _ _ _ (hlen i (List.mem_cons_self i l₂)), hpayeq]
  | cons h₀ rest ih =>
    simp only [List.cons_append] at hl hms hbs hlen hpos ⊢
    have hnd := List.nodup_cons.mp hl
    have hh0 : h₀ ∉ rest ++ i :: l₂ := hnd.1
    set pay := min (mins.getD h₀ 0) (min (balances.getD h₀ 0) a) with hpaydef
    set bs' := balances.set h₀ (balances.getD h₀ 0 - pay) with hbs'
    have happ : applyMins mins (h₀ :: (rest ++ i :: l₂)) balances a =
        applyMins mins (rest ++ i :: l₂) bs' (a - pay) := by rw [applyMins]
    have hbs'val : ∀ k ∈ rest ++ i :: l₂, bs'.getD k 0 = balances.getD k 0 := fun k hk =>
      getD_set_ne _ _ _ _ _ (fun hk' => hh0 (hk' ▸ hk))
    have hpay0 : 0 ≤ pay := le_min (hms h₀ (List.mem_cons_self _ _))
      (le_min (hbs h₀ (List.mem_cons_self _ _)) ha)
    have hpaya : pay ≤ a := (min_le_right _ _).trans (min_le_right _ _)
    have hji : j ∈ rest ++ i :: l₂ := List.mem_append_right _ (List.mem_cons_of_mem _ hj)
    have hii : i ∈ rest ++ i :: l₂ := List.mem_append_right _ (List.mem_cons_self _ _)
    rw [happ, ← hbs'val i hii]
    refine ih bs' (a - pay) hnd.2
      (fun k hk => hms k (List.mem_cons_of_mem _ hk))
      (fun k hk => (hbs'val k hk) ▸ hbs k (List.mem_cons_of_mem _ hk))
      (fun k hk => by rw [hbs', List.length_set]; exact hlen k (List.mem_cons_of_mem _ hk))
      (by linarith) ?_
    rw [hbs'val j hji]
    rw [happ] at hpos
    exact hpos

/-! ## Properties of the extra-payment pass -/

lemma applyExtra_fst_length (l : List ℕ) (balances : List ℚ) (a : ℚ) :
    ((applyExtra l balances a).1).length = balances.length := by
  induction l generalizing balances a with
  | nil => rfl
  | cons j rest ih =>
    rw [applyExtra]
    split
    · rw [ih, List.length_set]
    · rw [ih]

lemma getD_set_le (l : List ℚ) (j i : ℕ) (v : ℚ) (hv : v ≤ l.getD j 0) :
    (l.set j v).getD i 0 ≤ l.getD i 0 := by
  rcases eq_or_ne j i with rfl | hne
  · rcases Nat.lt_or_ge j l.length with hlt | hge
    · rw [getD_set_self _ _ _ _ hlt]; exact hv
    · rw [List.set_eq_of_length_le hge]
  · rw [getD_set_ne _ _ _ _ _ hne]

lemma applyExtra_getD_le (l : List ℕ) (balances : List ℚ) (a : ℚ) (i : ℕ) :
    ((applyExtra l balances a).1).getD i 0 ≤ balances.getD i 0 := by
  induction l generalizing balances a with
  | nil => exact le_refl _
  | cons j rest ih =>
    rw [applyExtra]
    split
    · rename_i hguard
      refine (ih _ _).trans (getD_set_le _ _ _ _ ?_)
      have : 0 ≤ min a (balances.getD j 0) := le_min (le_of_lt hguard.2)
        (le_of_lt ((by norm_num : (0:ℚ) < 0.01).trans hguard.1))
      linarith
    · exact ih _ _

lemma applyExtra_getD_of_le (l : List ℕ) (balances : List ℚ) (a : ℚ) (i : ℕ)
    (h : balances.getD i 0 ≤ 0.01) :
    ((applyExtra l balances a).1).getD i 0 = balances.getD i 0 := by
  induction l generalizing balances a with
  | nil => rfl
  | cons j rest ih =>
    rw [applyExtra]
    split
    · rename_i hguard
      have hji : j ≠ i := by
        rintro rfl
        exact absurd hguard.1 (not_lt.mpr h)
      rw [ih _ _ (by rw [getD_set_ne _ _ _ _ _ hji]; exact h), getD_set_ne _ _ _ _ _ hji]
    · exact ih _ _ h

/-! ## Properties of the revolving-minimum refresh -/

lemma updateMins_length (debts : List Debt) (l : List ℕ) (mins balances : List ℚ) :
    (updateMins debts l mins balances).length = mins.length := by
  induction l generalizing mins with
  | nil => rfl
  | cons j rest ih =>
    rw [updateMins]
    split <;> rw [ih] <;> simp [List.length_set]

lemma updateMins_getD_nonneg (debts : List Debt) (l : List ℕ) (mins balances : List ℚ)
    (h : ∀ i, 0 ≤ mins.getD i 0) :
    ∀ i, 0 ≤ (updateMins debts l mins balances).getD i 0 := by
  induction l generalizing mins with
  | nil => exact h
  | cons j rest ih =>
    rw [updateMins]
    refine ih _ (fun i => ?_)
    split
    · rcases eq_or_ne j i with rfl | hne
      · rcases Nat.lt_or_ge j mins.length with hlt | hge
        · rw [getD_set_self _ _ _ _ hlt]
          exact le_trans (by norm_num) (le_max_left 25 _)
        · rw [List.set_eq_of_length_le hge]; exact h j
      · rw [getD_set_ne _ _ _ _ _ hne]; exact h i
    · exact h i

/-! ## Properties of the payoff scan -/

lemma updatePayoffGo_length (month : ℕ) (balances : List ℚ) (k : ℕ)
    (payoff : List (Option ℕ)) :
    (updatePayoffGo month balances k payoff).length = payoff.length := by
  induction payoff generalizing k with
  | nil => rfl
  | cons p rest ih =>
    simp only [updatePayoffGo, List.length_cons]
    rw [ih]

lemma updatePayoffGo_getD_some (month : ℕ) (balances : List ℚ) (k : ℕ)
    (payoff : List (Option ℕ)) (i mm : ℕ) (h : payoff.getD i none = some mm) :
    (updatePayoffGo month balances k payoff).getD i none = some mm := by
  induction payoff generalizing k i with
  | nil => simp at h
  | cons p rest ih =>
    cases i with
    | zero =>
      rw [List.getD_cons_zero] at h
      simp only [updatePayoffGo, List.getD_cons_zero]
      rw [h]
    | succ i' =>
      rw [List.getD_cons_succ] at h
      simp only [updatePayoffGo, List.getD_cons_succ]
      exact ih _ _ h

/-! ## More list access helpers -/

lemma getD_append_left {α : Type} (l₁ l₂ : List α) (k : ℕ) (d : α) (h : k < l₁.length) :
    ((l₁ ++ l₂).getD k d) = l₁.getD k d := by
  induction l₁ generalizing k with
  | nil => simp at h
  | cons x xs ih =>
    cases k with
    | zero => rfl
    | succ k' => simpa using ih k' (by simpa using h)

lemma getD_concat_self {α : Type} (l : List α) (a : α) (d : α) :
    ((l ++ [a]).getD l.length d) = a := by
  induction l with
  | nil => rfl
  | cons x xs ih => simpa using ih

lemma getD_map_max (l : List ℚ) (i : ℕ) :
    ((l.map (fun b => max 0 b)).getD i 0) = max 0 (l.getD i 0) := by
  induction l generalizing i with
  | nil => simp
  | cons x xs ih =>
    cases i with
    | zero => rfl
    | succ i' => simpa using ih i'

lemma getD_mem {α : Type} (l : List α) (i : ℕ) (d : α) (h : i < l.length) :
    l.getD i d ∈ l := by
  induction l generalizing i with
  | nil => simp at h
  | cons x xs ih =>
    cases i with
    | zero => exact List.mem_cons_self _ _
    | succ i' => exact List.mem_cons_of_mem _ (ih i' (by simpa using h))

/-! ## One-month step characterisation -/

lemma stepMonth_timeline_spec (c : SimCtx) (month : ℕ) (s : SimState) :
    ∃ snap, (stepMonth c month s).timeline = s.timeline ++ [snap] ∧
      snap.month = month ∧ snap.balances = (stepMonth c month s).balances ∧
      snap.total_remaining = (stepMonth c month s).balances.sum ∧
      snap.total_interest = (stepMonth c month s).totalInt :=
  ⟨_, rfl, rfl, rfl, rfl, rfl⟩

lemma stepMonth_balances_nonneg (c : SimCtx) (month : ℕ) (s : SimState) :
    ∀ b ∈ (stepMonth c month s).balances, 0 ≤ b := by
  intro b hb
  simp only [stepMonth, List.mem_map] at hb
  obtain ⟨x, -, rfl⟩ := hb
  exact le_max_left 0 x

lemma stepMonth_balances_length (c : SimCtx) (month : ℕ) (s : SimState) :
    (stepMonth c month s).balances.length = s.balances.length := by
  simp only [stepMonth]
  rw [List.length_map, applyExtra_fst_length, applyMins_fst_length, accrueGo_fst_length]

lemma stepMonth_payoff_getD_some (c : SimCtx) (month : ℕ) (s : SimState) (i mm : ℕ)
    (h : s.payoff.getD i none = some mm) :
    (stepMonth c month s).payoff.getD i none = some mm :=
  updatePayoffGo_getD_some _ _ _ _ _ _ h

lemma stepMonth_getD_of_inactive (c : SimCtx) (month : ℕ) (s : SimState) (i : ℕ)
    (h0 : 0 ≤ s.balances.getD i 0) (h : s.balances.getD i 0 ≤ 0.01) :
    (stepMonth c month s).balances.getD i 0 = s.balances.getD i 0 := by
  have hnm : i ∉ activeIdx c.debts.length s.balances := by
    rw [mem_activeIdx]
    rintro ⟨-, hlt⟩
    linarith
  set active := activeIdx c.debts.length s.balances with hactive
  set mins1 := updateMins c.debts active s.mins s.balances with hmins1
  set disposable := max 0 (gross_monthly c.incomes month c.future_inc * 0.75 - c.exp_total)
    with hdisp
  set total_min := (active.map (fun i => mins1.getD i 0)).sum with htm
  set available := min disposable (total_min + max 0 ((disposable - total_min) * c.extra_pct))
    with havail
  set acc := accrueGo c.rates active s.balances 0 with hacc
  set pm := applyMins mins1 active acc.1 available with hpm
  set pe := applyExtra c.order pm.1 (max 0 pm.2) with hpe
  have hbal : (stepMonth c month s).balances = pe.1.map (fun b => max 0 b) := rfl
  rw [hbal, getD_map_max, hpe,
    applyExtra_getD_of_le _ _ _ _ (by
      rw [hpm, applyMins_getD_of_not_mem _ _ _ _ _ hnm, hacc,
        accrueGo_getD_of_not_mem _ _ _ _ _ hnm]
      exact h),
    hpm, applyMins_getD_of_not_mem _ _ _ _ _ hnm, hacc,
    accrueGo_getD_of_not_mem _ _ _ _ _ hnm, max_eq_right h0]

/-- The month step accrues interest on the pre-payment balances, adds it to
the cumulative total, and only then subtracts a combined (minimum + extra)
payment `p ≥ 0` from each active balance before the non-negative clamp. -/
lemma stepMonth_decomp (c : SimCtx) (month : ℕ) (s : SimState)
    (hm : ∀ i, 0 ≤ s.mins.getD i 0) (hr : ∀ i, 0 ≤ c.rates.getD i 0)
    (hlen : c.debts.length ≤ s.balances.length) :
    (stepMonth c month s).totalInt = s.totalInt +
      ((activeIdx c.debts.length s.balances).map
        (fun i => s.balances.getD i 0 * c.rates.getD i 0)).sum ∧
    ∀ i ∈ activeIdx c.debts.length s.balances, ∃ p, 0 ≤ p ∧
      (stepMonth c month s).balances.getD i 0 =
        max 0 (s.balances.getD i 0 * (1 + c.rates.getD i 0) - p) := by
  have hnd := activeIdx_nodup c.debts.length s.balances
  set active := activeIdx c.debts.length s.balances with hactive
  set mins1 := updateMins c.debts active s.mins s.balances with hmins1
  set disposable := max 0 (gross_monthly c.incomes month c.future_inc * 0.75 - c.exp_total)
    with hdisp
  set total_min := (active.map (fun i => mins1.getD i 0)).sum with htm
  set available := min disposable (total_min + max 0 ((disposable - total_min) * c.extra_pct))
    with havail
  set acc := accrueGo c.rates active s.balances 0 with hacc
  set pm := applyMins mins1 active acc.1 available with hpm
  set pe := applyExtra c.order pm.1 (max 0 pm.2) with hpe
  have hbal : (stepMonth c month s).balances = pe.1.map (fun b => max 0 b) := rfl
  have htot : (stepMonth c month s).totalInt = s.totalInt + acc.2 := rfl
  have hmins1nn : ∀ i, 0 ≤ mins1.getD i 0 := updateMins_getD_nonneg _ _ _ _ hm
  have hacc_len : acc.1.length = s.balances.length := accrueGo_fst_length _ _ _ _
  have hmemlen : ∀ k ∈ active, k < s.balances.length := fun k hk =>
    lt_of_lt_of_le (mem_activeIdx.mp hk).1 hlen
  have haccval : ∀ k ∈ active, acc.1.getD k 0 =
      s.balances.getD k 0 * (1 + c.rates.getD k 0) := fun k hk =>
    accrueGo_getD_of_mem _ _ _ _ _ hnd hk (hmemlen k hk)
  have hdisp0 : 0 ≤ disposable := le_max_left 0 _
  have htm0 : 0 ≤ total_min :=
    List.sum_nonneg (by
      intro x hx
      obtain ⟨k, -, rfl⟩ := List.mem_map.mp hx
      exact hmins1nn k)
  have havail0 : 0 ≤ available :=
    le_min hdisp0 (add_nonneg htm0 (le_max_left 0 _))
  have hspec := applyMins_spec mins1 active acc.1 available hnd
    (fun k _ => hmins1nn k)
    (fun k hk => by
      rw [haccval k hk]
      have h1 : (0:ℚ) ≤ s.balances.getD k 0 :=
        le_of_lt ((by norm_num : (0:ℚ) < 0.01).trans (mem_activeIdx.mp hk).2)
      have h2 : (0:ℚ) ≤ 1 + c.rates.getD k 0 := by linarith [hr k]
      exact mul_nonneg h1 h2)
    (fun k hk => by rw [hacc_len]; exact hmemlen k hk)
    havail0
  refine ⟨?_, ?_⟩
  · rw [htot, hacc, accrueGo_snd _ _ _ _ hnd, zero_add]
  · intro i hi
    obtain ⟨pmin, hp0, -, -, hres⟩ := hspec.2 i hi
    have hple : pe.1.getD i 0 ≤ pm.1.getD i 0 := applyExtra_getD_le _ _ _ _
    refine ⟨pmin + (pm.1.getD i 0 - pe.1.getD i 0), by linarith, ?_⟩
    rw [hbal, getD_map_max, ← haccval i hi]
    congr 1
    rw [hres]
    ring

lemma getD_nonneg (l : List ℚ) (h : ∀ b ∈ l, 0 ≤ b) (i : ℕ) : 0 ≤ l.getD i 0 := by
  induction l generalizing i with
  | nil => simp
  | cons x xs ih =>
    cases i with
    | zero => exact h x (List.mem_cons_self _ _)
    | succ i' => exact ih (fun b hb => h b (List.mem_cons_of_mem _ hb)) i'

/-! ## Loop invariants -/

lemma simLoop_succ_of_ne (c : SimCtx) (month fuel : ℕ) (s : SimState)
    (h : activeIdx c.debts.length s.balances ≠ []) :
    simLoop c month (fuel + 1) s = simLoop c (month + 1) fuel (stepMonth c month s) := by
  rw [simLoop, if_neg h]

lemma simLoop_succ_of_eq (c : SimCtx) (month fuel : ℕ) (s : SimState)
    (h : activeIdx c.debts.length s.balances = []) :
    simLoop c month (fuel + 1) s = s := by
  rw [simLoop, if_pos h]

/-- Any property of snapshots that holds of every snapshot a month step appends
propagates from the initial timeline to the final one. -/
lemma simLoop_timeline_all (c : SimCtx) (P : Snapshot → Prop)
    (hstep : ∀ month s snap, (stepMonth c month s).timeline = s.timeline ++ [snap] → P snap)
    (fuel : ℕ) :
    ∀ month s, (∀ x ∈ s.timeline, P x) → ∀ x ∈ (simLoop c month fuel s).timeline, P x := by
  induction fuel with
  | zero => intro month s h; exact h
  | succ f ih =>
    intro month s h x hx
    by_cases hact : activeIdx c.debts.length s.balances = []
    · rw [simLoop_succ_of_eq _ _ _ _ hact] at hx
      exact h x hx
    · rw [simLoop_succ_of_ne _ _ _ _ hact] at hx
      refine ih _ _ ?_ x hx
      intro y hy
      obtain ⟨snap, htl, -, -, -, -⟩ := stepMonth_timeline_spec c month s
      rw [htl] at hy
      rcases List.mem_append.mp hy with hy | hy
      · exact h y hy
      · rw [List.mem_singleton.mp hy]
        exact hstep month s snap htl

lemma simLoop_length_le (c : SimCtx) (fuel : ℕ) :
    ∀ month s, (simLoop c month fuel s).timeline.length ≤ s.timeline.length + fuel := by
  induction fuel with
  | zero => intro month s; exact le_refl _
  | succ f ih =>
    intro month s
    by_cases hact : activeIdx c.debts.length s.balances = []
    · rw [simLoop_succ_of_eq _ _ _ _ hact]
      exact Nat.le_add_right _ _
    · rw [simLoop_succ_of_ne _ _ _ _ hact]
      refine (ih _ _).trans ?_
      obtain ⟨snap, htl, -, -, -, -⟩ := stepMonth_timeline_spec c month s
      rw [htl, List.length_append, List.length_singleton]
      omega

lemma simLoop_months (c : SimCtx) (fuel : ℕ) :
    ∀ month s, s.timeline.map (·.month) = List.range' 1 s.timeline.length →
      month = s.timeline.length + 1 →
      (simLoop c month fuel s).timeline.map (·.month) =
        List.range' 1 (simLoop c month fuel s).timeline.length := by
  induction fuel with
  | zero => intro month s h _; exact h
  | succ f ih =>
    intro month s h hm
    by_cases hact : activeIdx c.debts.length s.balances = []
    · rw [simLoop_succ_of_eq _ _ _ _ hact]; exact h
    · rw [simLoop_succ_of_ne _ _ _ _ hact]
      obtain ⟨snap, htl, hmonth, -, -, -⟩ := stepMonth_timeline_spec c month s
      refine ih _ _ ?_ ?_
      · rw [htl, List.map_append, List.length_append, List.map_singleton, hmonth, h,
          List.length_singleton, List.range'_1_concat]
        rw [hm]
        simp [Nat.add_comm]
      · rw [htl, List.length_append, List.length_singleton]
        omega

lemma simLoop_stop_inv (c : SimCtx) (fuel : ℕ) :
    ∀ month s,
      (s.timeline ≠ [] →
        (s.timeline.getD (s.timeline.length - 1) default).balances = s.balances) →
      s.balances.length = c.debts.length →
      (∀ k, k + 1 < s.timeline.length →
        ∃ b ∈ (s.timeline.getD k default).balances, 0.01 < b) →
      ∀ k, k + 1 < (simLoop c month fuel s).timeline.length →
        ∃ b ∈ ((simLoop c month fuel s).timeline.getD k default).balances, 0.01 < b := by
  induction fuel with
  | zero => intro month s _ _ hprev; exact hprev
  | succ f ih =>
    intro month s hlink hlen hprev
    by_cases hact : activeIdx c.debts.length s.balances = []
    · rw [simLoop_succ_of_eq _ _ _ _ hact]; exact hprev
    · rw [simLoop_succ_of_ne _ _ _ _ hact]
      obtain ⟨snap, htl, -, hsnapbal, -, -⟩ := stepMonth_timeline_spec c month s
      have hnewlen : (stepMonth c month s).timeline.length = s.timeline.length + 1 := by
        rw [htl, List.length_append, List.length_singleton]
      refine ih _ _ ?_ ?_ ?_
      · intro hne
        rw [hnewlen, Nat.add_sub_cancel, htl, getD_concat_self, hsnapbal]
      · rw [stepMonth_balances_length]; exact hlen
      · intro k hk
        rw [hnewlen] at hk
        rw [htl, getD_append_left _ _ _ _ (by omega)]
        rcases Nat.lt_or_ge (k + 1) s.timeline.length with hlt | hge
        · exact hprev k hlt
        · have hkeq : k + 1 = s.timeline.length := le_antisymm (by omega) hge
          have htle : s.timeline ≠ [] := by
            intro hnil
            rw [hnil] at hkeq
            simp at hkeq
          have hk' : k = s.timeline.length - 1 := by omega
          rw [hk', hlink htle]
          obtain ⟨i, hi⟩ := List.exists_mem_of_ne_nil _ hact
          obtain ⟨hin, hiv⟩ := mem_activeIdx.mp hi
          exact ⟨s.balances.getD i 0, getD_mem _ _ _ (by omega), hiv⟩

lemma simLoop_payoff_some (c : SimCtx) (fuel : ℕ) :
    ∀ month s i mm, s.payoff.getD i none = some mm →
      (simLoop c month fuel s).payoff.getD i none = some mm := by
  induction fuel with
  | zero => intro month s i mm h; exact h
  | succ f ih =>
    intro month s i mm h
    by_cases hact : activeIdx c.debts.length s.balances = []
    · rw [simLoop_succ_of_eq _ _ _ _ hact]; exact h
    · rw [simLoop_succ_of_ne _ _ _ _ hact]
      exact ih _ _ _ _ (stepMonth_payoff_getD_some _ _ _ _ _ h)

lemma simLoop_inactive (c : SimCtx) (fuel : ℕ) :
    ∀ month s i, 0 ≤ s.balances.getD i 0 → s.balances.getD i 0 ≤ 0.01 →
      (simLoop c month fuel s).balances.getD i 0 = s.balances.getD i 0 ∧
      ∀ x ∈ (simLoop c month fuel s).timeline,
        x ∈ s.timeline ∨ x.balances.getD i 0 = s.balances.getD i 0 := by
  induction fuel with
  | zero => intro month s i _ _; exact ⟨rfl, fun x hx => Or.inl hx⟩
  | succ f ih =>
    intro month s i h0 h1
    by_cases hact : activeIdx c.debts.length s.balances = []
    · rw [simLoop_succ_of_eq _ _ _ _ hact]
      exact ⟨rfl, fun x hx => Or.inl hx⟩
    · rw [simLoop_succ_of_ne _ _ _ _ hact]
      have hstep := stepMonth_getD_of_inactive c month s i h0 h1
      obtain ⟨res, hres⟩ := ih (month + 1) (stepMonth c month s) i (hstep ▸ h0) (hstep ▸ h1)
      refine ⟨by rw [res, hstep], fun x hx => ?_⟩
      rcases hres x hx with hx' | hx'
      · obtain ⟨snap, htl, -, hsnapbal, -, -⟩ := stepMonth_timeline_spec c month s
        rw [htl] at hx'
        rcases List.mem_append.mp hx' with hx'' | hx''
        · exact Or.inl hx''
        · right
          rw [List.mem_singleton.mp hx'', hsnapbal, hstep]
      · right
        rw [hx', hstep]

lemma simLoop_snap_persist (c : SimCtx) (fuel : ℕ) (i : ℕ) :
    ∀ month s,
      (∀ x ∈ s.timeline, ∀ b ∈ x.balances, 0 ≤ b) →
      (s.timeline ≠ [] →
        (s.timeline.getD (s.timeline.length - 1) default).balances = s.balances) →
      (∀ k j, k ≤ j → j < s.timeline.length →
        (s.timeline.getD k default).balances.getD i 0 ≤ 0.01 →
        (s.timeline.getD j default).balances.getD i 0 =
          (s.timeline.getD k default).balances.getD i 0) →
      ∀ k j, k ≤ j → j < (simLoop c month fuel s).timeline.length →
        ((simLoop c month fuel s).timeline.getD k default).balances.getD i 0 ≤ 0.01 →
        ((simLoop c month fuel s).timeline.getD j default).balances.getD i 0 =
          ((simLoop c month fuel s).timeline.getD k default).balances.getD i 0 := by
  induction fuel with
  | zero => intro month s _ _ hpast; exact hpast
  | succ f ih =>
    intro month s hnn hlink hpast
    by_cases hact : activeIdx c.debts.length s.balances = []
    · rw [simLoop_succ_of_eq _ _ _ _ hact]; exact hpast
    · rw [simLoop_succ_of_ne _ _ _ _ hact]
      obtain ⟨snap, htl, -, hsnapbal, -, -⟩ := stepMonth_timeline_spec c month s
      have hnewlen : (stepMonth c month s).timeline.length = s.timeline.length + 1 := by
        rw [htl, List.length_append, List.length_singleton]
      refine ih _ _ ?_ ?_ ?_
      · intro x hx
        rw [htl] at hx
        rcases List.mem_append.mp hx with hx' | hx'
        · exact hnn x hx'
        · rw [List.mem_singleton.mp hx', hsnapbal]
          exact stepMonth_balances_nonneg c month s
      · intro hne
        rw [hnewlen, Nat.add_sub_cancel, htl, getD_concat_self, hsnapbal]
      · intro k j hkj hj hk
        rw [hnewlen] at hj
        rcases Nat.lt_or_ge j s.timeline.length with hjlt | hjge
        · rw [htl, getD_append_left _ _ _ _ hjlt,
            getD_append_left _ _ _ _ (lt_of_le_of_lt hkj hjlt)]
          rw [htl, getD_append_left _ _ _ _ (lt_of_le_of_lt hkj hjlt)] at hk
          exact hpast k j hkj hjlt hk
        · have hjeq : j = s.timeline.length := by omega
          rcases Nat.lt_or_ge k s.timeline.length with hklt | hkge
          · -- the target snapshot is the fresh one; walk through the state
            have htlne : s.timeline ≠ [] := by
              intro hnil
              rw [hnil] at hklt
              simp at hklt
            rw [htl, getD_append_left _ _ _ _ hklt] at hk ⊢
            have hlast := hpast k (s.timeline.length - 1) (by omega) (by omega) hk
            have hsv : s.balances.getD i 0 =
                (s.timeline.getD k default).balances.getD i 0 := by
              rw [← hlink htlne, hlast]
            have h0v : 0 ≤ (s.timeline.getD k default).balances.getD i 0 :=
              getD_nonneg _ (hnn _ (getD_mem _ _ _ hklt)) i
            rw [hjeq, getD_concat_self, hsnapbal,
              stepMonth_getD_of_inactive c month s i (by rw [hsv]; exact h0v)
                (by rw [hsv]; exact hk)]
            exact hsv
          · have hkeq : k = s.timeline.length := by omega
            rw [hjeq, hkeq]

lemma simulateSpecMins_of_ne (debts : List Debt) (incomes : List Income)
    (future_inc : List FutureIncome) (exp_total extra_pct : ℚ) (strategy : Strategy)
    (max_months : ℕ) (h : debts ≠ []) :
    simulateSpecMins debts incomes future_inc exp_total extra_pct strategy max_months =
      ((simLoopSpecMins (simCtxOf debts incomes future_inc exp_total extra_pct strategy)
          1 max_months (initState debts)).timeline,
        collectEvents debts
          (simLoopSpecMins (simCtxOf debts incomes future_inc exp_total extra_pct strategy)
            1 max_months (initState debts)).payoff) := by
  simp [simulateSpecMins, h]

/-! ## Concrete run evaluations -/

lemma xAstep1 :
    stepMonth xAc 1 xAs0 = xAs1 := by
  norm_num [stepMonth, activeIdx, gross_monthly, updateMins, accrueGo, applyMins, applyExtra,
    updatePayoff, updatePayoffGo, DEBT_CFG, FREQ_MULT, List.range_succ, xAc, xAs0, xAs1, cexDebts, cexIncs]

lemma xAstep2 :
    stepMonth xAc 2 xAs1 = xAs2 := by
  norm_num [stepMonth, activeIdx, gross_monthly, updateMins, accrueGo, applyMins, applyExtra,
    updatePayoff, updatePayoffGo, DEBT_CFG, FREQ_MULT, List.range_succ, xAc, xAs1, xAs2, cexDebts, cexIncs]

lemma xSstep1 :
    stepMonthSpecMins xSc 1 xSs0 = xSs1 := by
  norm_num [stepMonthSpecMins, activeIdx, gross_monthly, updateMins, accrueGo, applyMins, applyExtra,
    updatePayoff, updatePayoffGo, DEBT_CFG, FREQ_MULT, List.range_succ, xSc, xSs0, xSs1, cexDebts, cexIncs]

lemma eAstep1 :
    stepMonth eAc 1 eAs0 = eAs1 := by
  norm_num [stepMonth, activeIdx, gross_monthly, updateMins, accrueGo, applyMins, applyExtra,
    updatePayoff, updatePayoffGo, DEBT_CFG, FREQ_MULT, List.range_succ, eAc, eAs0, eAs1, eDebts, eIncs]

lemma eAstep2 :
    stepMonth eAc 2 eAs1 = eAs2 := by
  norm_num [stepMonth, activeIdx, gross_monthly, updateMins, accrueGo, applyMins, applyExtra,
    updatePayoff, updatePayoffGo, DEBT_CFG, FREQ_MULT, List.range_succ, eAc, eAs1, eAs2, eDebts, eIncs]

lemma eAstep3 :
    stepMonth eAc 3 eAs2 = eAs3 := by
  norm_num [stepMonth, activeIdx, gross_monthly, updateMins, accrueGo, applyMins, applyExtra,
    updatePayoff, updatePayoffGo, DEBT_CFG, FREQ_MULT, List.range_succ, eAc, eAs2, eAs3, eDebts, eIncs]

lemma eSstep1 :
    stepMonth eSc 1 eSs0 = eSs1 := by
  norm_num [stepMonth, activeIdx, gross_monthly, updateMins, accrueGo, applyMins, applyExtra,
    updatePayoff, updatePayoffGo, DEBT_CFG, FREQ_MULT, List.range_succ, eSc, eSs0, eSs1, eDebts, eIncs]

lemma eSstep2 :
    stepMonth eSc 2 eSs1 = eSs2 := by
  norm_num [stepMonth, activeIdx, gross_monthly, updateMins, accrueGo, applyMins, applyExtra,
    updatePayoff, updatePayoffGo, DEBT_CFG, FREQ_MULT, List.range_succ, eSc, eSs1, eSs2, eDebts, eIncs]

lemma eSstep3 :
    stepMonth eSc 3 eSs2 = eSs3 := by
  norm_num [stepMonth, activeIdx, gross_monthly, updateMins, accrueGo, applyMins, applyExtra,
    updatePayoff, updatePayoffGo, DEBT_CFG, FREQ_MULT, List.range_succ, eSc, eSs2, eSs3, eDebts, eIncs]

lemma fAstep1 :
    stepMonth fAc 1 fAs0 = fAs1 := by
  norm_num [stepMonth, activeIdx, gross_monthly, updateMins, accrueGo, applyMins, applyExtra,
    updatePayoff, updatePayoffGo, DEBT_CFG, FREQ_MULT, List.range_succ, fAc, fAs0, fAs1, fDebts, fIncs]

lemma fAstep2 :
    stepMonth fAc 2 fAs1 = fAs2 := by
  norm_num [stepMonth, activeIdx, gross_monthly, updateMins, accrueGo, applyMins, applyExtra,
    updatePayoff, updatePayoffGo, DEBT_CFG, FREQ_MULT, List.range_succ, fAc, fAs1, fAs2, fDebts, fIncs]

lemma fAstep3 :
    stepMonth fAc 3 fAs2 = fAs3 := by
  norm_num [stepMonth, activeIdx, gross_monthly, updateMins, accrueGo, applyMins, applyExtra,
    updatePayoff, updatePayoffGo, DEBT_CFG, FREQ_MULT, List.range_succ, fAc, fAs2, fAs3, fDebts, fIncs]

lemma fSstep1 :
    stepMonth fSc 1 fSs0 = fSs1 := by
  norm_num [stepMonth, activeIdx, gross_monthly, updateMins, accrueGo, applyMins, applyExtra,
    updatePayoff, updatePayoffGo, DEBT_CFG, FREQ_MULT, List.range_succ, fSc, fSs0, fSs1, fDebts, fIncs]

lemma fSstep2 :
    stepMonth fSc 2 fSs1 = fSs2 := by
  norm_num [stepMonth, activeIdx, gross_monthly, updateMins, accrueGo, applyMins, applyExtra,
    updatePayoff, updatePayoffGo, DEBT_CFG, FREQ_MULT, List.range_succ, fSc, fSs1, fSs2, fDebts, fIncs]

lemma fSstep3 :
    stepMonth fSc 3 fSs2 = fSs3 := by
  norm_num [stepMonth, activeIdx, gross_monthly, updateMins, accrueGo, applyMins, applyExtra,
    updatePayoff, updatePayoffGo, DEBT_CFG, FREQ_MULT, List.range_succ, fSc, fSs2, fSs3, fDebts, fIncs]

lemma gAstep1 :
    stepMonth gAc 1 gAs0 = gAs1 := by
  norm_num [stepMonth, activeIdx, gross_monthly, updateMins, accrueGo, applyMins, applyExtra,
    updatePayoff, updatePayoffGo, DEBT_CFG, FREQ_MULT, List.range_succ, gAc, gAs0, gAs1, gDebts, gIncs]

lemma gAstep2 :
    stepMonth gAc 2 gAs1 = gAs2 := by
  norm_num [stepMonth, activeIdx, gross_monthly, updateMins, accrueGo, applyMins, applyExtra,
    updatePayoff, updatePayoffGo, DEBT_CFG, FREQ_MULT, List.range_succ, gAc, gAs1, gAs2, gDebts, gIncs]

lemma gAstep3 :
    stepMonth gAc 3 gAs2 = gAs3 := by
  norm_num [stepMonth, activeIdx, gross_monthly, updateMins, accrueGo, applyMins, applyExtra,
    updatePayoff, updatePayoffGo, DEBT_CFG, FREQ_MULT, List.range_succ, gAc, gAs2, gAs3, gDebts, gIncs]

lemma gSstep1 :
    stepMonth gSc 1 gSs0 = gSs1 := by
  norm_num [stepMonth, activeIdx, gross_monthly, updateMins, accrueGo, applyMins, applyExtra,
    updatePayoff, updatePayoffGo, DEBT_CFG, FREQ_MULT, List.range_succ, gSc, gSs0, gSs1, gDebts, gIncs]

lemma gSstep2 :
    stepMonth gSc 2 gSs1 = gSs2 := by
  norm_num [stepMonth, activeIdx, gross_monthly, updateMins, accrueGo, applyMins, applyExtra,
    updatePayoff, updatePayoffGo, DEBT_CFG, FREQ_MULT, List.range_succ, gSc, gSs1, gSs2, gDebts, gIncs]

lemma gSstep3 :
    stepMonth gSc 3 gSs2 = gSs3 := by
  norm_num [stepMonth, activeIdx, gross_monthly, updateMins, accrueGo, applyMins, applyExtra,
    updatePayoff, updatePayoffGo, DEBT_CFG, FREQ_MULT, List.range_succ, gSc, gSs2, gSs3, gDebts, gIncs]

lemma zAstep1 :
    stepMonth zAc 1 zAs0 = zAs1 := by
  norm_num [stepMonth, activeIdx, gross_monthly, updateMins, accrueGo, applyMins, applyExtra,
    updatePayoff, updatePayoffGo, DEBT_CFG, FREQ_MULT, List.range_succ, zAc, zAs0, zAs1, zDebts, zIncs]

lemma zAstep2 :
    stepMonth zAc 2 zAs1 = zAs2 := by
  norm_num [stepMonth, activeIdx, gross_monthly, updateMins, accrueGo, applyMins, applyExtra,
    updatePayoff, updatePayoffGo, DEBT_CFG, FREQ_MULT, List.range_succ, zAc, zAs1, zAs2, zDebts, zIncs]

lemma nAstep1 :
    stepMonth nAc 1 nAs0 = nAs1 := by
  norm_num [stepMonth, activeIdx, gross_monthly, updateMins, accrueGo, applyMins, applyExtra,
    updatePayoff, updatePayoffGo, DEBT_CFG, FREQ_MULT, List.range_succ, nAc, nAs0, nAs1, nDebts, zIncs]

lemma xActx : simCtxOf cexDebts cexIncs [] 0 0 .avalanche = xAc := by
  norm_num [simCtxOf, strategyOrder, List.range_succ, cexDebts, cexIncs, xAc]

lemma xAinit : initState cexDebts = xAs0 := by
  norm_num [initState, calc_min, amortize, resolvedTerm, DEBT_CFG, List.replicate,
    Int.toNat, cexDebts, xAs0]

lemma xAloop1 : simLoop xAc 1 1 xAs0 = xAs1 := by
  rw [simLoop_succ_of_ne xAc 1 0 xAs0 (by norm_num [activeIdx, List.range_succ, xAc, cexDebts, xAs0] <;> decide),
    xAstep1,
    simLoop_zero xAc 2 xAs1]

lemma xAsim1 : simulate cexDebts cexIncs [] 0 0 .avalanche 1 =
    (xAs1.timeline, collectEvents cexDebts xAs1.payoff) := by
  rw [simulate_of_ne _ _ _ _ _ _ _ (by simp [cexDebts]), xActx, xAinit, xAloop1]

lemma xAloop2 : simLoop xAc 1 2 xAs0 = xAs2 := by
  rw [simLoop_succ_of_ne xAc 1 1 xAs0 (by norm_num [activeIdx, List.range_succ, xAc, cexDebts, xAs0] <;> decide),
    xAstep1,
    simLoop_succ_of_ne xAc 2 0 xAs1 (by norm_num [activeIdx, List.range_succ, xAc, cexDebts, xAs1] <;> decide),
    xAstep2,
    simLoop_zero xAc 3 xAs2]

lemma xAsim2 : simulate cexDebts cexIncs [] 0 0 .avalanche 2 =
    (xAs2.timeline, collectEvents cexDebts xAs2.payoff) := by
  rw [simulate_of_ne _ _ _ _ _ _ _ (by simp [cexDebts]), xActx, xAinit, xAloop2]

lemma xSctx : simCtxOf cexDebts cexIncs [] 0 0 .avalanche = xSc := by
  norm_num [simCtxOf, strategyOrder, List.range_succ, cexDebts, cexIncs, xSc]

lemma xSinit : initState cexDebts = xSs0 := by
  norm_num [initState, calc_min, amortize, resolvedTerm, DEBT_CFG, List.replicate,
    Int.toNat, cexDebts, xSs0]

lemma xSloop1 : simLoopSpecMins xSc 1 1 xSs0 = xSs1 := by
  rw [simLoopSpecMins_go xSc 1 0 xSs0 (by norm_num [activeIdx, List.range_succ, xSc, cexDebts, xSs0] <;> decide),
    xSstep1,
    simLoopSpecMins_zero xSc 2 xSs1]

lemma xSsim1 : simulateSpecMins cexDebts cexIncs [] 0 0 .avalanche 1 =
    (xSs1.timeline, collectEvents cexDebts xSs1.payoff) := by
  rw [simulateSpecMins_of_ne _ _ _ _ _ _ _ (by simp [cexDebts]), xSctx, xSinit, xSloop1]

lemma eActx : simCtxOf eDebts eIncs [] 0 0 .avalanche = eAc := by
  norm_num [simCtxOf, strategyOrder, List.range_succ, eDebts, eIncs, eAc]

lemma eAinit : initState eDebts = eAs0 := by
  norm_num [initState, calc_min, amortize, resolvedTerm, DEBT_CFG, List.replicate,
    Int.toNat, eDebts, eAs0]

lemma eAloop600 : simLoop eAc 1 600 eAs0 = eAs3 := by
  rw [simLoop_succ_of_ne eAc 1 599 eAs0 (by norm_num [activeIdx, List.range_succ, eAc, eDebts, eAs0] <;> decide),
    eAstep1,
    simLoop_succ_of_ne eAc 2 598 eAs1 (by norm_num [activeIdx, List.range_succ, eAc, eDebts, eAs1] <;> decide),
    eAstep2,
    simLoop_succ_of_ne eAc 3 597 eAs2 (by norm_num [activeIdx, List.range_succ, eAc, eDebts, eAs2] <;> decide),
    eAstep3,
    simLoop_succ_of_eq eAc 4 596 eAs3 (by norm_num [activeIdx, List.range_succ, eAc, eDebts, eAs3])]

lemma eAsim600 : simulate eDebts eIncs [] 0 0 .avalanche 600 =
    (eAs3.timeline, collectEvents eDebts eAs3.payoff) := by
  rw [simulate_of_ne _ _ _ _ _ _ _ (by simp [eDebts]), eActx, eAinit, eAloop600]

lemma eSctx : simCtxOf eDebts eIncs [] 0 0 .snowball = eSc := by
  norm_num [simCtxOf, strategyOrder, List.range_succ, eDebts, eIncs, eSc]

lemma eSinit : initState eDebts = eSs0 := by
  norm_num [initState, calc_min, amortize, resolvedTerm, DEBT_CFG, List.replicate,
    Int.toNat, eDebts, eSs0]

lemma eSloop600 : simLoop eSc 1 600 eSs0 = eSs3 := by
  rw [simLoop_succ_of_ne eSc 1 599 eSs0 (by norm_num [activeIdx, List.range_succ, eSc, eDebts, eSs0] <;> decide),
    eSstep1,
    simLoop_succ_of_ne eSc 2 598 eSs1 (by norm_num [activeIdx, List.range_succ, eSc, eDebts, eSs1] <;> decide),
    eSstep2,
    simLoop_succ_of_ne eSc 3 597 eSs2 (by norm_num [activeIdx, List.range_succ, eSc, eDebts, eSs2] <;> decide),
    eSstep3,
    simLoop_succ_of_eq eSc 4 596 eSs3 (by norm_num [activeIdx, List.range_succ, eSc, eDebts, eSs3])]

lemma eSsim600 : simulate eDebts eIncs [] 0 0 .snowball 600 =
    (eSs3.timeline, collectEvents eDebts eSs3.payoff) := by
  rw [simulate_of_ne _ _ _ _ _ _ _ (by simp [eDebts]), eSctx, eSinit, eSloop600]

lemma fActx : simCtxOf fDebts fIncs [] 0 (9/10) .avalanche = fAc := by
  norm_num [simCtxOf, strategyOrder, List.range_succ, fDebts, fIncs, fAc]

lemma fAinit : initState fDebts = fAs0 := by
  norm_num [initState, calc_min, amortize, resolvedTerm, DEBT_CFG, List.replicate,
    Int.toNat, fDebts, fAs0]

lemma fAloop600 : simLoop fAc 1 600 fAs0 = fAs3 := by
  rw [simLoop_succ_of_ne fAc 1 599 fAs0 (by norm_num [activeIdx, List.range_succ, fAc, fDebts, fAs0] <;> decide),
    fAstep1,
    simLoop_succ_of_ne fAc 2 598 fAs1 (by norm_num [activeIdx, List.range_succ, fAc, fDebts, fAs1] <;> decide),
    fAstep2,
    simLoop_succ_of_ne fAc 3 597 fAs2 (by norm_num [activeIdx, List.range_succ, fAc, fDebts, fAs2] <;> decide),
    fAstep3,
    simLoop_succ_of_eq fAc 4 596 fAs3 (by norm_num [activeIdx, List.range_succ, fAc, fDebts, fAs3])]

lemma fAsim600 : simulate fDebts fIncs [] 0 (9/10) .avalanche 600 =
    (fAs3.timeline, collectEvents fDebts fAs3.payoff) := by
  rw [simulate_of_ne _ _ _ _ _ _ _ (by simp [fDebts]), fActx, fAinit, fAloop600]

lemma fSctx : simCtxOf fDebts fIncs [] 0 (9/10) .snowball = fSc := by
  norm_num [simCtxOf, strategyOrder, List.range_succ, fDebts, fIncs, fSc]

lemma fSinit : initState fDebts = fSs0 := by
  norm_num [initState, calc_min, amortize, resolvedTerm, DEBT_CFG, List.replicate,
    Int.toNat, fDebts, fSs0]

lemma fSloop600 : simLoop fSc 1 600 fSs0 = fSs3 := by
  rw [simLoop_succ_of_ne fSc 1 599 fSs0 (by norm_num [activeIdx, List.range_succ, fSc, fDebts, fSs0] <;> decide),
    fSstep1,
    simLoop_succ_of_ne fSc 2 598 fSs1 (by norm_num [activeIdx, List.range_succ, fSc, fDebts, fSs1] <;> decide),
    fSstep2,
    simLoop_succ_of_ne fSc 3 597 fSs2 (by norm_num [activeIdx, List.range_succ, fSc, fDebts, fSs2] <;> decide),
    fSstep3,
    simLoop_succ_of_eq fSc 4 596 fSs3 (by norm_num [activeIdx, List.range_succ, fSc, fDebts, fSs3])]

lemma fSsim600 : simulate fDebts fIncs [] 0 (9/10) .snowball 600 =
    (fSs3.timeline, collectEvents fDebts fSs3.payoff) := by
  rw [simulate_of_ne _ _ _ _ _ _ _ (by simp [fDebts]), fSctx, fSinit, fSloop600]

lemma gActx : simCtxOf gDebts gIncs [] 0 (7/10) .avalanche = gAc := by
  norm_num [simCtxOf, strategyOrder, List.range_succ, gDebts, gIncs, gAc]

lemma gAinit : initState gDebts = gAs0 := by
  norm_num [initState, calc_min, amortize, resolvedTerm, DEBT_CFG, List.replicate,
    Int.toNat, gDebts, gAs0]

lemma gAloop600 : simLoop gAc 1 600 gAs0 = gAs3 := by
  rw [simLoop_succ_of_ne gAc 1 599 gAs0 (by norm_num [activeIdx, List.range_succ, gAc, gDebts, gAs0] <;> decide),
    gAstep1,
    simLoop_succ_of_ne gAc 2 598 gAs1 (by norm_num [activeIdx, List.range_succ, gAc, gDebts, gAs1] <;> decide),
    gAstep2,
    simLoop_succ_of_ne gAc 3 597 gAs2 (by norm_num [activeIdx, List.range_succ, gAc, gDebts, gAs2] <;> decide),
    gAstep3,
    simLoop_succ_of_eq gAc 4 596 gAs3 (by norm_num [activeIdx, List.range_succ, gAc, gDebts, gAs3])]

lemma gAsim600 : simulate gDebts gIncs [] 0 (7/10) .avalanche 600 =
    (gAs3.timeline, collectEvents gDebts gAs3.payoff) := by
  rw [simulate_of_ne _ _ _ _ _ _ _ (by simp [gDebts]), gActx, gAinit, gAloop600]

lemma gSctx : simCtxOf gDebts gIncs [] 0 (7/10) .snowball = gSc := by
  norm_num [simCtxOf, strategyOrder, List.range_succ, gDebts, gIncs, gSc]

lemma gSinit : initState gDebts = gSs0 := by
  norm_num [initState, calc_min, amortize, resolvedTerm, DEBT_CFG, List.replicate,
    Int.toNat, gDebts, gSs0]

lemma gSloop600 : simLoop gSc 1 600 gSs0 = gSs3 := by
  rw [simLoop_succ_of_ne gSc 1 599 gSs0 (by norm_num [activeIdx, List.range_succ, gSc, gDebts, gSs0] <;> decide),
    gSstep1,
    simLoop_succ_of_ne gSc 2 598 gSs1 (by norm_num [activeIdx, List.range_succ, gSc, gDebts, gSs1] <;> decide),
    gSstep2,
    simLoop_succ_of_ne gSc 3 597 gSs2 (by norm_num [activeIdx, List.range_succ, gSc, gDebts, gSs2] <;> decide),
    gSstep3,
    simLoop_succ_of_eq gSc 4 596 gSs3 (by norm_num [activeIdx, List.range_succ, gSc, gDebts, gSs3])]

lemma gSsim600 : simulate gDebts gIncs [] 0 (7/10) .snowball 600 =
    (gSs3.timeline, collectEvents gDebts gSs3.payoff) := by
  rw [simulate_of_ne _ _ _ _ _ _ _ (by simp [gDebts]), gSctx, gSinit, gSloop600]

lemma zActx : simCtxOf zDebts zIncs [] 0 0 .avalanche = zAc := by
  norm_num [simCtxOf, strategyOrder, List.range_succ, zDebts, zIncs, zAc]

lemma zAinit : initState zDebts = zAs0 := by
  norm_num [initState, calc_min, amortize, resolvedTerm, DEBT_CFG, List.replicate,
    Int.toNat, zDebts, zAs0]

lemma zAloop2 : simLoop zAc 1 2 zAs0 = zAs2 := by
  rw [simLoop_succ_of_ne zAc 1 1 zAs0 (by norm_num [activeIdx, List.range_succ, zAc, zDebts, zAs0] <;> decide),
    zAstep1,
    simLoop_succ_of_ne zAc 2 0 zAs1 (by norm_num [activeIdx, List.range_succ, zAc, zDebts, zAs1] <;> decide),
    zAstep2,
    simLoop_zero zAc 3 zAs2]

lemma zAsim2 : simulate zDebts zIncs [] 0 0 .avalanche 2 =
    (zAs2.timeline, collectEvents zDebts zAs2.payoff) := by
  rw [simulate_of_ne _ _ _ _ _ _ _ (by simp [zDebts]), zActx, zAinit, zAloop2]

lemma nActx : simCtxOf nDebts zIncs [] 0 0 .avalanche = nAc := by
  norm_num [simCtxOf, strategyOrder, List.range_succ, nDebts, zIncs, nAc]

lemma nAinit : initState nDebts = nAs0 := by
  norm_num [initState, calc_min, amortize, resolvedTerm, DEBT_CFG, List.replicate,
    Int.toNat, nDebts, nAs0]

lemma nAloop1 : simLoop nAc 1 1 nAs0 = nAs1 := by
  rw [simLoop_succ_of_ne nAc 1 0 nAs0 (by norm_num [activeIdx, List.range_succ, nAc, nDebts, nAs0] <;> decide),
    nAstep1,
    simLoop_zero nAc 2 nAs1]

lemma nAsim1 : simulate nDebts zIncs [] 0 0 .avalanche 1 =
    (nAs1.timeline, collectEvents nDebts nAs1.payoff) := by
  rw [simulate_of_ne _ _ _ _ _ _ _ (by simp [nDebts]), nActx, nAinit, nAloop1]


lemma istep1 :
    stepMonth iCtx 1 is0 = is1 := by
  norm_num [stepMonth, activeIdx, gross_monthly, updateMins, accrueGo, applyMins, applyExtra,
    updatePayoff, updatePayoffGo, DEBT_CFG, FREQ_MULT, List.range_succ, iCtx, is0, is1,
    iDebts, iIncs]

lemma istep2 :
    stepMonth iCtx 2 is1 = is2 := by
  norm_num [stepMonth, activeIdx, gross_monthly, updateMins, accrueGo, applyMins, applyExtra,
    updatePayoff, updatePayoffGo, DEBT_CFG, FREQ_MULT, List.range_succ, iCtx, is1, is2,
    iDebts, iIncs]

lemma ictx : simCtxOf iDebts iIncs [] 0 0 .avalanche = iCtx := by
  norm_num [simCtxOf, strategyOrder, List.range_succ, iDebts, iIncs, iCtx]

lemma iinit : initState iDebts = is0 := by
  norm_num [initState, calc_min, amortize, resolvedTerm, DEBT_CFG, List.replicate,
    Int.toNat, iDebts, is0]

lemma iloop2 : simLoop iCtx 1 2 is0 = is2 := by
  rw [simLoop_succ_of_ne iCtx 1 1 is0
      (by norm_num [activeIdx, List.range_succ, iCtx, iDebts, is0] <;> decide),
    istep1,
    simLoop_succ_of_ne iCtx 2 0 is1
      (by norm_num [activeIdx, List.range_succ, iCtx, iDebts, is1] <;> decide),
    istep2, simLoop_zero]

lemma isim2 : simulate iDebts iIncs [] 0 0 .avalanche 2 =
    (is2.timeline, collectEvents iDebts is2.payoff) := by
  rw [simulate_of_ne _ _ _ _ _ _ _ (by simp [iDebts]), ictx, iinit, iloop2]


/-- Congruence form of one month step: supplying each intermediate value
by equation yields the assembled state. -/
lemma stepMonth_build (c : SimCtx) (month : ℕ) (s : SimState)
    (active : List ℕ) (mins1 : List ℚ) (th avail : ℚ) (acc1 : List ℚ) (mi : ℚ)
    (bs2 : List ℚ) (av2 : ℚ) (bs3 bs4 : List ℚ) (po : List (Option ℕ))
    (hact : activeIdx c.debts.length s.balances = active)
    (hth : gross_monthly c.incomes month c.future_inc * 0.75 = th)
    (hmins : updateMins c.debts active s.mins s.balances = mins1)
    (havail : min (max 0 (th - c.exp_total))
        ((active.map (fun i => mins1.getD i 0)).sum +
          max 0 ((max 0 (th - c.exp_total) - (active.map (fun i => mins1.getD i 0)).sum) *
            c.extra_pct)) = avail)
    (hacc : accrueGo c.rates active s.balances 0 = (acc1, mi))
    (hpm : applyMins mins1 active acc1 avail = (bs2, av2))
    (hpe : (applyExtra c.order bs2 (max 0 av2)).1 = bs3)
    (hclamp : bs3.map (fun b => max 0 b) = bs4)
    (hpo : updatePayoffGo month bs4 0 s.payoff = po) :
    stepMonth c month s =
      ⟨bs4, mins1, s.totalInt + mi,
        s.timeline ++ [⟨month, bs4, bs4.sum, s.totalInt + mi, th, c.exp_total⟩], po⟩ := by
  have hacc1 : (accrueGo c.rates active s.balances 0).1 = acc1 := by rw [hacc]
  have hmi : (accrueGo c.rates active s.balances 0).2 = mi := by rw [hacc]
  have hbs2 : (applyMins mins1 active acc1 avail).1 = bs2 := by rw [hpm]
  have hav2 : (applyMins mins1 active acc1 avail).2 = av2 := by rw [hpm]
  subst hact hth hmins havail hacc1 hmi hbs2 hav2 hpe hclamp hpo
  rfl

lemma iActive (b : ℚ) (hb : 0.01 < b) : activeIdx iCtx.debts.length [b] = [0] := by
  norm_num [activeIdx, iCtx, iDebts, List.range_succ]
  linarith

lemma iGm (month : ℕ) : gross_monthly iCtx.incomes month iCtx.future_inc * 0.75 = 3000 := by
  norm_num [gross_monthly, iCtx, iIncs, FREQ_MULT]

lemma iMins (b m : ℚ) (hb : 10000 ≤ b) : updateMins iCtx.debts [0] [m] [b] = [b / 50] := by
  norm_num [updateMins, DEBT_CFG, iCtx, iDebts]
  rw [max_eq_right (by linarith)]
  ring

lemma iAvail (b : ℚ) :
    min (max 0 ((3000 : ℚ) - iCtx.exp_total))
      ((([0] : List ℕ).map (fun i => ([b / 50] : List ℚ).getD i 0)).sum +
        max 0 ((max 0 ((3000 : ℚ) - iCtx.exp_total) -
          (([0] : List ℕ).map (fun i => ([b / 50] : List ℚ).getD i 0)).sum) *
            iCtx.extra_pct)) = min 3000 (b / 50) := by
  norm_num [iCtx]

lemma iAcc (b : ℚ) : accrueGo iCtx.rates [0] [b] 0 = ([b * (41/40)], b / 40) := by
  norm_num [accrueGo, iCtx]
  constructor <;> ring

lemma iPm (b : ℚ) (hb : 10000 ≤ b) :
    applyMins [b / 50] [0] [b * (41/40)] (min 3000 (b / 50)) =
      ([b * (41/40) - min (b / 50) 3000], 0) := by
  rcases le_total (b / 50) 3000 with h | h
  · have h1 : min (3000 : ℚ) (b / 50) = b / 50 := min_eq_right h
    have h2 : min (b * (41/40)) (b / 50) = b / 50 := min_eq_right (by linarith)
    have h3 : min (b / 50) 3000 = b / 50 := min_eq_left h
    norm_num [applyMins, h1, h2, h3]
  · have h1 : min (3000 : ℚ) (b / 50) = 3000 := min_eq_left h
    have h2 : min (b * (41/40)) (3000 : ℚ) = 3000 := min_eq_right (by linarith)
    have h3 : min (b / 50) (3000 : ℚ) = 3000 := min_eq_right h
    norm_num [applyMins, h1, h2, h3]

lemma iNext_ge (b : ℚ) (hb : 10000 ≤ b) : b ≤ b * (41/40) - min (b / 50) 3000 := by
  rcases le_total (b / 50) 3000 with h | h
  · rw [min_eq_left h]; linarith
  · rw [min_eq_right h]; linarith

lemma iPe (b : ℚ) : (applyExtra iCtx.order [b] (max 0 0)).1 = [b] := by
  norm_num [applyExtra, iCtx]

lemma iClamp (b : ℚ) (hb : 0 ≤ b) : ([b] : List ℚ).map (fun x => max 0 x) = [b] := by
  simp [max_eq_right hb]

lemma iPo (month : ℕ) (b : ℚ) (hb : 10000 ≤ b) (p : Option ℕ) :
    updatePayoffGo month [b] 0 [p] = [p] := by
  cases p with
  | none =>
    have : ¬(b < 0.01) := by norm_num; linarith
    simp [updatePayoffGo, this]
  | some k => simp [updatePayoffGo]

lemma iStepSym (month : ℕ) (b m ti : ℚ) (tl : List Snapshot) (p : Option ℕ)
    (hb : 10000 ≤ b) :
    stepMonth iCtx month ⟨[b], [m], ti, tl, [p]⟩ =
      ⟨[b * (41/40) - min (b / 50) 3000], [b / 50], ti + b / 40,
        tl ++ [⟨month, [b * (41/40) - min (b / 50) 3000],
          ([b * (41/40) - min (b / 50) 3000] : List ℚ).sum, ti + b / 40, 3000, 0⟩], [p]⟩ := by
  have h0 : (0 : ℚ) ≤ b * (41/40) - min (b / 50) 3000 := le_trans (by linarith) (iNext_ge b hb)
  have hbig : (10000 : ℚ) ≤ b * (41/40) - min (b / 50) 3000 := le_trans hb (iNext_ge b hb)
  have := stepMonth_build iCtx month ⟨[b], [m], ti, tl, [p]⟩
    [0] [b / 50] 3000 (min 3000 (b / 50)) [b * (41/40)] (b / 40)
    [b * (41/40) - min (b / 50) 3000] 0 [b * (41/40) - min (b / 50) 3000]
    [b * (41/40) - min (b / 50) 3000] [p]
    (iActive b (by linarith)) (iGm month) (iMins b m hb) (iAvail b) (iAcc b) (iPm b hb)
    (iPe _) (iClamp _ h0) (iPo month _ hbig p)
  exact this.trans rfl


lemma iLoopSym (fuel : ℕ) :
    ∀ month b m ti tl p, 10000 ≤ b →
      ∃ b' m' ti' snaps,
        simLoop iCtx month fuel ⟨[b], [m], ti, tl, [p]⟩ =
          ⟨[b'], [m'], ti', tl ++ snaps, [p]⟩ ∧
        10000 ≤ b' ∧ snaps.length = fuel ∧
        (fuel ≠ 0 → ∃ rest snapL, snaps = rest ++ [snapL] ∧
          snapL.total_remaining = b') := by
  induction fuel with
  | zero =>
    intro month b m ti tl p hb
    exact ⟨b, m, ti, [], by simp [simLoop_zero], hb, rfl, fun h => absurd rfl h⟩
  | succ f ih =>
    intro month b m ti tl p hb
    have hact : activeIdx iCtx.debts.length ([b] : List ℚ) = [0] := iActive b (by linarith)
    rw [simLoop_succ_of_ne iCtx month f ⟨[b], [m], ti, tl, [p]⟩ (by rw [hact]; simp),
      iStepSym month b m ti tl p hb]
    set nb := b * (41/40) - min (b / 50) 3000 with hnb
    set snap1 : Snapshot := ⟨month, [nb], ([nb] : List ℚ).sum, ti + b / 40, 3000, 0⟩
      with hsnap1
    have hnbge : 10000 ≤ nb := le_trans hb (iNext_ge b hb)
    obtain ⟨b', m', ti', snaps', hres, hge, hlen, hlast⟩ :=
      ih (month + 1) nb (b / 50) (ti + b / 40) (tl ++ [snap1]) p hnbge
    refine ⟨b', m', ti', snap1 :: snaps', ?_, hge, by simp [hlen], ?_⟩
    · rw [hres, List.append_assoc]
      rfl
    · intro hne
      rcases Nat.eq_zero_or_pos f with rfl | hf
      · have hnil : snaps' = [] := List.length_eq_zero.mp hlen
        subst hnil
        rw [simLoop_zero] at hres
        have hbal := congrArg SimState.balances hres
        simp only [SimState.balances] at hbal
        have hb' : nb = b' := by
          have := List.head_eq_of_cons_eq hbal
          exact this
        refine ⟨[], snap1, rfl, ?_⟩
        rw [hsnap1]
        simp [← hb']
      · obtain ⟨rest, snapL, hsplit, hval⟩ := hlast (by omega)
        exact ⟨snap1 :: rest, snapL, by simp [hsplit], hval⟩


lemma getD_map_balance (debts : List Debt) (i : ℕ) :
    ((debts.map (fun d => d.balance)).getD i 0) = (debts.getD i default).balance := by
  induction debts generalizing i with
  | nil => rfl
  | cons d ds ih =>
    cases i with
    | zero => rfl
    | succ n => exact ih n

/-! ## Claims -/

/-- Claim C1 is false as stated: on the starvation instance (budget 30 below
the 50 of combined minimums, avalanche strategy) the engine pays minimums in
input order, not strategy order.  The code's first month leaves the
higher-APR debt (index 1, first in avalanche order) with balance 1015 (only
5 of its 25 minimum paid) while the spec-ordered engine leaves it with 995:
the two engines differ. -/
theorem c1_counterexample :
    (simulate cexDebts cexIncs [] 0 0 .avalanche 1).1.map (·.balances) =
      [[2950/3, 1015]] ∧
    (simulateSpecMins cexDebts cexIncs [] 0 0 .avalanche 1).1.map (·.balances) =
      [[3010/3, 995]] ∧
    (simulate cexDebts cexIncs [] 0 0 .avalanche 1).1.map (·.balances) ≠
      (simulateSpecMins cexDebts cexIncs [] 0 0 .avalanche 1).1.map (·.balances) := by
  refine ⟨?_, ?_, ?_⟩
  · rw [xAsim1]
    norm_num [xAs1]
  · rw [xSsim1]
    norm_num [xSs1]
  · rw [xAsim1, xSsim1]
    norm_num [xAs1, xSs1]

/-- Claim C1 (amended): the minimum-payment pass iterates the active list,
which is ascending in debt input order, not the strategy ordering; the pass
is greedy in that order, so whenever a later active debt receives a positive
minimum payment, every earlier active debt already received its full demand
`min(minimum, balance)` — under an insufficient budget, debts later in input
order are starved. -/
theorem c1_minimums_input_order_greedy (n : ℕ) (balances mins : List ℚ) (a : ℚ)
    (i j : ℕ) (hms : ∀ k ∈ activeIdx n balances, 0 ≤ mins.getD k 0)
    (hn : n ≤ balances.length) (ha : 0 ≤ a)
    (hi : i ∈ activeIdx n balances) (hj : j ∈ activeIdx n balances) (hij : i < j)
    (hpos : 0 < balances.getD j 0 -
      ((applyMins mins (activeIdx n balances) balances a).1).getD j 0) :
    (activeIdx n balances).Pairwise (· < ·) ∧
    balances.getD i 0 -
        ((applyMins mins (activeIdx n balances) balances a).1).getD i 0 =
      min (mins.getD i 0) (balances.getD i 0) := by
  refine ⟨activeIdx_pairwise n balances, ?_⟩
  obtain ⟨l₁, l₂, hsplit⟩ := List.append_of_mem hi
  have hjl₂ : j ∈ l₂ := by
    have hpw := activeIdx_pairwise n balances
    rw [hsplit] at hpw hj
    rcases List.mem_append.mp hj with hj1 | hj2
    · exfalso
      have := (List.pairwise_append.mp hpw).2.2 j hj1 i (List.mem_cons_self _ _)
      omega
    · rcases List.mem_cons.mp hj2 with rfl | hj3
      · omega
      · exact hj3
  have hnd := activeIdx_nodup n balances
  have hbs : ∀ k ∈ activeIdx n balances, 0 ≤ balances.getD k 0 := by
    intro k hk
    have := (mem_activeIdx.mp hk).2
    have h001 : (0:ℚ) < 0.01 := by norm_num
    linarith
  have hlen : ∀ k ∈ activeIdx n balances, k < balances.length := fun k hk =>
    lt_of_lt_of_le (mem_activeIdx.mp hk).1 hn
  rw [hsplit] at hnd hms hbs hlen hpos ⊢
  have hg := applyMins_greedy mins l₁ i l₂ balances a hnd hms hbs hlen ha j hjl₂ hpos
  rw [hg]
  ring

/-- Witness for the amended C1 theorem: the starvation month's concrete
minimum pass (post-interest balances, 30 available against 50 of minimums):
debt 1 got a positive partial payment, so debt 0 received its full demand. -/
theorem c1_minimums_input_order_greedy_witness :
    (activeIdx 2 [(3025 : ℚ)/3, 1020]).Pairwise (· < ·) ∧
    ([(3025 : ℚ)/3, 1020] : List ℚ).getD 0 0 -
        ((applyMins [25, 25] (activeIdx 2 [(3025 : ℚ)/3, 1020])
          [(3025 : ℚ)/3, 1020] 30).1).getD 0 0 =
      min (([25, 25] : List ℚ).getD 0 0) (([(3025 : ℚ)/3, 1020] : List ℚ).getD 0 0) :=
  c1_minimums_input_order_greedy 2 [(3025 : ℚ)/3, 1020] [25, 25] 30 0 1
    (fun k hk => by
      have hk2 := (mem_activeIdx.mp hk).1
      interval_cases k <;> norm_num)
    (by norm_num) (by norm_num)
    (mem_activeIdx.mpr ⟨by norm_num, by norm_num⟩)
    (mem_activeIdx.mpr ⟨by norm_num, by norm_num⟩)
    (by norm_num)
    (by norm_num [applyMins, activeIdx, List.range_succ])


/-- Claim C2 is false as stated: on a credit card whose required minimum
(200) does not exceed its monthly interest accrual (250), `simulate` signals
nothing distinct; it silently runs to the horizon cap, returning a
full-length timeline with the balance still above the threshold and an
empty payoff-events list — indistinguishable in shape from an
in-progress run. -/
theorem c2_counterexample :
    calc_min (iDebts.getD 0 default) ≤
      (iDebts.getD 0 default).balance * ((iDebts.getD 0 default).rate / 100 / 12) ∧
    (simulate iDebts iIncs [] 0 0 .avalanche 2).1.length = 2 ∧
    0.01 < ((simulate iDebts iIncs [] 0 0 .avalanche 2).1.getLastD
      default).total_remaining ∧
    (simulate iDebts iIncs [] 0 0 .avalanche 2).2 = [] := by
  refine ⟨by norm_num [calc_min, DEBT_CFG, iDebts], ?_, ?_, ?_⟩ <;> rw [isim2] <;>
    norm_num [is2, collectEvents, List.range_succ, List.getLastD, iDebts]

/-- Claim C2 (amended): the engine has no infeasibility signal; on the
infeasible instance it iterates the debt to the horizon cap for every cap
`max_months ≥ 1`: exactly `max_months` snapshots, a final remaining balance
above the threshold, and no payoff event.  The caller can only detect the
infeasibility from the returned timeline. -/
theorem c2_infeasible_runs_to_horizon (M : ℕ) (hM : 1 ≤ M) :
    (simulate iDebts iIncs [] 0 0 .avalanche M).1.length = M ∧
    0.01 < ((simulate iDebts iIncs [] 0 0 .avalanche M).1.getLastD
      default).total_remaining ∧
    (simulate iDebts iIncs [] 0 0 .avalanche M).2 = [] := by
  rw [simulate_of_ne _ _ _ _ _ _ _ (by simp [iDebts]), ictx, iinit,
    show is0 = (⟨[10000], [200], 0, [], [none]⟩ : SimState) from rfl]
  obtain ⟨b', m', ti', snaps, hres, hge, hlen, hlast⟩ :=
    iLoopSym M 1 10000 200 0 [] none (by norm_num)
  rw [hres]
  obtain ⟨rest, snapL, hsplit, hval⟩ := hlast (by omega)
  refine ⟨by simpa using hlen, ?_, ?_⟩
  · rw [List.nil_append, hsplit, List.getLastD_concat, hval]
    linarith
  · norm_num [collectEvents, List.range_succ, iDebts]

/-- Witness for the amended C2 theorem at the concrete horizon cap 3. -/
theorem c2_infeasible_runs_to_horizon_witness :
    (simulate iDebts iIncs [] 0 0 .avalanche 3).1.length = 3 ∧
    0.01 < ((simulate iDebts iIncs [] 0 0 .avalanche 3).1.getLastD
      default).total_remaining ∧
    (simulate iDebts iIncs [] 0 0 .avalanche 3).2 = [] :=
  c2_infeasible_runs_to_horizon 3 (by norm_num)

/-- Claim C3 is false as stated: a revolving debt (Credit Card) with zero
balance gets the $25 floor from `calc_min`, not 0. -/
theorem c3_counterexample :
    calc_min ⟨"X", .creditCard, 0, 20, none⟩ = 25 ∧ (25 : ℚ) ≠ 0 := by
  norm_num [calc_min, DEBT_CFG]

/-- Claim C3 (amended): for installment categories (`min_pct = 0`) a
non-positive balance or a non-positive resolved term yields payment 0; for
revolving categories (`min_pct > 0`, i.e. Credit Card and Medical Debt) the
payment never drops below the $25 floor, even at zero or negative balance. -/
theorem c3_min_payment_zero_rules (d : Debt) :
    ((DEBT_CFG d.dtype).min_pct = 0 →
      (d.balance ≤ 0 ∨ resolvedTerm d ≤ 0) → calc_min d = 0) ∧
    (0 < (DEBT_CFG d.dtype).min_pct → 25 ≤ calc_min d) := by
  constructor
  · intro hpct hcase
    simp only [calc_min, amortize, hpct]
    rw [if_neg (lt_irrefl (0 : ℚ)), if_pos hcase.symm]
  · intro hpct
    simp only [calc_min]
    rw [if_pos hpct]
    exact le_max_left 25 _

/-- Witness for the amended C3 theorem: an installment loan with negative
balance pays 0, one with a negative remaining term pays 0, and a zero-balance
credit card still pays at least the $25 floor. -/
theorem c3_min_payment_zero_rules_witness :
    calc_min ⟨"L", .carLoan, -5, 10, some 12⟩ = 0 ∧
    calc_min ⟨"T", .carLoan, 100, 10, some (-3)⟩ = 0 ∧
    25 ≤ calc_min ⟨"C", .creditCard, 0, 20, none⟩ :=
  ⟨(c3_min_payment_zero_rules _).1 (by norm_num [DEBT_CFG]) (Or.inl (by norm_num)),
    (c3_min_payment_zero_rules _).1 (by norm_num [DEBT_CFG])
      (Or.inr (by norm_num [resolvedTerm, DEBT_CFG])),
    (c3_min_payment_zero_rules _).2 (by norm_num [DEBT_CFG])⟩

/-- Claim C4: in each simulated month the interest `balance × APR/100/12` on
the start-of-month balances is accumulated into the cumulative total, the
appended snapshot records that total, and each active balance ends the month
as `max 0 (balance × (1 + rate) − p)` for some combined payment `p ≥ 0`:
interest is added and recorded strictly before payments are subtracted, so
it compounds on the pre-payment balance. -/
theorem c4_interest_before_payments (c : SimCtx) (month : ℕ) (s : SimState)
    (hm : ∀ i, 0 ≤ s.mins.getD i 0) (hr : ∀ i, 0 ≤ c.rates.getD i 0)
    (hlen : c.debts.length ≤ s.balances.length) :
    (stepMonth c month s).totalInt = s.totalInt +
      ((activeIdx c.debts.length s.balances).map
        (fun i => s.balances.getD i 0 * c.rates.getD i 0)).sum ∧
    (∃ snap, (stepMonth c month s).timeline = s.timeline ++ [snap] ∧
      snap.total_interest = (stepMonth c month s).totalInt) ∧
    ∀ i ∈ activeIdx c.debts.length s.balances, ∃ p, 0 ≤ p ∧
      (stepMonth c month s).balances.getD i 0 =
        max 0 (s.balances.getD i 0 * (1 + c.rates.getD i 0) - p) := by
  obtain ⟨h1, h2⟩ := stepMonth_decomp c month s hm hr hlen
  obtain ⟨snap, htl, -, -, -, hti⟩ := stepMonth_timeline_spec c month s
  exact ⟨h1, ⟨snap, htl, hti⟩, h2⟩

/-- Witness for C4 at the starvation instance's first month. -/
theorem c4_interest_before_payments_witness :
    (stepMonth xAc 1 xAs0).totalInt = xAs0.totalInt +
      ((activeIdx xAc.debts.length xAs0.balances).map
        (fun i => xAs0.balances.getD i 0 * xAc.rates.getD i 0)).sum ∧
    (∃ snap, (stepMonth xAc 1 xAs0).timeline = xAs0.timeline ++ [snap] ∧
      snap.total_interest = (stepMonth xAc 1 xAs0).totalInt) ∧
    ∀ i ∈ activeIdx xAc.debts.length xAs0.balances, ∃ p, 0 ≤ p ∧
      (stepMonth xAc 1 xAs0).balances.getD i 0 =
        max 0 (xAs0.balances.getD i 0 * (1 + xAc.rates.getD i 0) - p) :=
  c4_interest_before_payments xAc 1 xAs0
    (fun i => getD_nonneg _ (by norm_num [xAs0]) i)
    (fun i => getD_nonneg _ (by norm_num [xAc]) i)
    (by norm_num [xAc, cexDebts, xAs0])

/-- Claim C5: the simulation terminates: the timeline has at most
`max_months` snapshots (default cap 600), numbered consecutively from month
1; every non-final snapshot still has some balance above the $0.01
threshold, so the loop stops as soon as no debt is active at the start of a
month. -/
theorem c5_termination_bounds (debts : List Debt) (incomes : List Income)
    (future_inc : List FutureIncome) (exp_total extra_pct : ℚ) (strategy : Strategy)
    (M : ℕ) :
    (simulate debts incomes future_inc exp_total extra_pct strategy M).1.length ≤ M ∧
    (simulate debts incomes future_inc exp_total extra_pct strategy M).1.map (·.month) =
      List.range' 1
        (simulate debts incomes future_inc exp_total extra_pct strategy M).1.length ∧
    (∀ k, k + 1 <
        (simulate debts incomes future_inc exp_total extra_pct strategy M).1.length →
      ∃ b ∈ ((simulate debts incomes future_inc exp_total extra_pct strategy M).1.getD k
        default).balances, 0.01 < b) ∧
    simulate debts incomes future_inc exp_total extra_pct strategy =
      simulate debts incomes future_inc exp_total extra_pct strategy 600 := by
  by_cases hd : debts = []
  · subst hd
    refine ⟨?_, ?_, ?_, rfl⟩ <;> simp [simulate]
  · rw [simulate_of_ne _ _ _ _ _ _ _ hd]
    refine ⟨?_, ?_, ?_, rfl⟩
    · simpa [initState] using simLoop_length_le _ M 1 (initState debts)
    · exact simLoop_months _ M 1 (initState debts) (by simp [initState]) (by simp [initState])
    · exact simLoop_stop_inv _ M 1 (initState debts)
        (by intro h; simp [initState] at h)
        (by simp [initState, simCtxOf])
        (by intro k hk; simp [initState] at hk)

/-- Witness for C5 at the two-month starvation run. -/
theorem c5_termination_bounds_witness :
    (simulate cexDebts cexIncs [] 0 0 .avalanche 2).1.length ≤ 2 ∧
    ∃ b ∈ ((simulate cexDebts cexIncs [] 0 0 .avalanche 2).1.getD 0 default).balances,
      (0.01 : ℚ) < b :=
  ⟨(c5_termination_bounds cexDebts cexIncs [] 0 0 .avalanche 2).1,
    (c5_termination_bounds cexDebts cexIncs [] 0 0 .avalanche 2).2.2.1 0
      (by rw [xAsim2]; norm_num [xAs2])⟩


/-- Claim C6: every snapshot of every returned timeline has only
non-negative per-debt balances (clamped at the end of each month), and hence
a non-negative total remaining balance. -/
theorem c6_snapshot_balances_nonneg (debts : List Debt) (incomes : List Income)
    (future_inc : List FutureIncome) (exp_total extra_pct : ℚ) (strategy : Strategy)
    (M : ℕ) :
    ∀ snap ∈ (simulate debts incomes future_inc exp_total extra_pct strategy M).1,
      (∀ b ∈ snap.balances, 0 ≤ b) ∧ 0 ≤ snap.total_remaining := by
  by_cases hd : debts = []
  · subst hd
    simp [simulate]
  · rw [simulate_of_ne _ _ _ _ _ _ _ hd]
    refine simLoop_timeline_all _ _ ?_ M 1 (initState debts) (by simp [initState])
    intro month s snap htl
    obtain ⟨snap', htl', -, hbal, hsum, -⟩ := stepMonth_timeline_spec _ month s
    have hss : snap = snap' := by
      have h2 := htl.symm.trans htl'
      simpa using h2
    subst hss
    refine ⟨?_, ?_⟩
    · rw [hbal]
      exact stepMonth_balances_nonneg _ month s
    · rw [hsum]
      exact List.sum_nonneg (fun b hb => stepMonth_balances_nonneg _ month s b hb)

/-- Witness for C6 at the starvation run's first snapshot. -/
theorem c6_snapshot_balances_nonneg_witness :
    0 ≤ ((simulate cexDebts cexIncs [] 0 0 .avalanche 1).1.getD 0
      default).total_remaining :=
  ((c6_snapshot_balances_nonneg cexDebts cexIncs [] 0 0 .avalanche 1) _
    (by rw [xAsim1]; exact getD_mem _ _ _ (by norm_num [xAs1]))).2

/-- Claim C7 is false in both clauses.  The universal inequality fails: on a
two-debt instance with unequal APRs (22.01% vs 22%) and a 0.7 extra-payment
fraction, Avalanche accumulates strictly MORE total interest than Snowball
(the required minimums — 2% of balance against the $25 floor — depend on the
balances each ordering leaves, so the two runs deploy different amounts
through the minimum pass).  The equality condition fails too: two debts with
unequal APRs (12% vs 6%) produce exactly equal total interest when the
extra-payment fraction is 0 and the minimum pass never runs short. -/
theorem c7_counterexample :
    (finalInterest gDebts gIncs [] 0 (7/10) .snowball 600 <
      finalInterest gDebts gIncs [] 0 (7/10) .avalanche 600 ∧
      (gDebts.getD 0 default).rate ≠ (gDebts.getD 1 default).rate ∧
      gDebts.length = 2) ∧
    (finalInterest eDebts eIncs [] 0 0 .avalanche 600 =
      finalInterest eDebts eIncs [] 0 0 .snowball 600 ∧
      (eDebts.getD 0 default).rate ≠ (eDebts.getD 1 default).rate ∧
      eDebts.length = 2) := by
  constructor
  · refine ⟨?_, by norm_num [gDebts], by norm_num [gDebts]⟩
    simp only [finalInterest]
    rw [gAsim600, gSsim600]
    norm_num [gAs3, gSs3, List.getLastD]
  · refine ⟨?_, by norm_num [eDebts], by norm_num [eDebts]⟩
    simp only [finalInterest]
    rw [eAsim600, eSsim600]
    norm_num [eAs3, eSs3, List.getLastD]

/-- Claim C7 (amended): the total-interest ordering between the two
strategies is input-dependent — no direction of the comparison is universal.
Concretely: Avalanche pays strictly less total interest than Snowball on one
two-debt instance (24% vs 6% APR, 0.9 extra fraction), strictly more on
another (22.01% vs 22% APR, 0.7 extra fraction), and exactly the same on a
third despite unequal APRs (12% vs 6%, zero extra fraction). -/
theorem c7_interest_comparison :
    finalInterest fDebts fIncs [] 0 (9/10) .avalanche 600 <
      finalInterest fDebts fIncs [] 0 (9/10) .snowball 600 ∧
    finalInterest gDebts gIncs [] 0 (7/10) .snowball 600 <
      finalInterest gDebts gIncs [] 0 (7/10) .avalanche 600 ∧
    finalInterest eDebts eIncs [] 0 0 .avalanche 600 =
      finalInterest eDebts eIncs [] 0 0 .snowball 600 := by
  refine ⟨?_, ?_, ?_⟩
  · simp only [finalInterest]
    rw [fAsim600, fSsim600]
    norm_num [fAs3, fSs3, List.getLastD]
  · simp only [finalInterest]
    rw [gAsim600, gSsim600]
    norm_num [gAs3, gSs3, List.getLastD]
  · simp only [finalInterest]
    rw [eAsim600, eSsim600]
    norm_num [eAs3, eSs3, List.getLastD]

/-- Claim C8: `freedom_score` always returns an integer in [0, 100], and
returns exactly 100 when the debt list is empty or the gross income is 0. -/
theorem c8_freedom_score_range (debts : List Debt) (gross_m exp_total : ℚ) :
    0 ≤ freedom_score debts gross_m exp_total ∧
    freedom_score debts gross_m exp_total ≤ 100 ∧
    ((debts = [] ∨ gross_m = 0) → freedom_score debts gross_m exp_total = 100) := by
  by_cases h : debts = [] ∨ gross_m = 0
  · rw [freedom_score, if_pos h]
    norm_num
  · rw [freedom_score, if_neg h]
    refine ⟨le_max_left 0 _, max_le (by norm_num) (min_le_left _ _), fun hcon => absurd hcon h⟩

/-- Witness for C8: an empty debt list scores exactly 100, and a non-empty
instance scores within [0, 100]. -/
theorem c8_freedom_score_range_witness :
    freedom_score [] 5 0 = 100 ∧
    0 ≤ freedom_score cexDebts 40 0 ∧ freedom_score cexDebts 40 0 ≤ 100 :=
  ⟨(c8_freedom_score_range [] 5 0).2.2 (Or.inl rfl),
    (c8_freedom_score_range cexDebts 40 0).1,
    (c8_freedom_score_range cexDebts 40 0).2.1⟩

/-- Claim C9 is false in one corner: the end-of-month clamp raises a debt
with a negative input balance to 0 during the first simulated month, even
though the debt was already at or below the threshold, so its balance does
change once more. -/
theorem c9_counterexample :
    (nDebts.getD 1 default).balance ≤ 0.01 ∧
    ((simulate nDebts zIncs [] 0 0 .avalanche 1).1.getD 0 default).balances.getD 1 0 ≠
      (nDebts.getD 1 default).balance := by
  constructor
  · norm_num [nDebts]
  · rw [nAsim1]
    norm_num [nAs1, nDebts]

/-- Claim C9 (amended): a debt whose balance is at or below the $0.01
threshold is excluded from the active set: with a non-negative input balance
at or below the threshold, every snapshot carries that balance unchanged; a
snapshot balance at or below the threshold persists identically to all later
snapshots (no interest, no payments); and a recorded payoff month is never
overwritten by the loop.  (For a negative input balance, the first month's
clamp raises it to 0 once, the single exception.) -/
theorem c9_inactive_debt_frozen (debts : List Debt) (incomes : List Income)
    (future_inc : List FutureIncome) (exp_total extra_pct : ℚ) (strategy : Strategy)
    (M : ℕ) (i : ℕ) :
    (0 ≤ (debts.getD i default).balance → (debts.getD i default).balance ≤ 0.01 →
      ∀ snap ∈ (simulate debts incomes future_inc exp_total extra_pct strategy M).1,
        snap.balances.getD i 0 = (debts.getD i default).balance) ∧
    (∀ k j, k ≤ j →
      j < (simulate debts incomes future_inc exp_total extra_pct strategy M).1.length →
      ((simulate debts incomes future_inc exp_total extra_pct strategy M).1.getD k
        default).balances.getD i 0 ≤ 0.01 →
      ((simulate debts incomes future_inc exp_total extra_pct strategy M).1.getD j
        default).balances.getD i 0 =
        ((simulate debts incomes future_inc exp_total extra_pct strategy M).1.getD k
          default).balances.getD i 0) ∧
    (∀ (c : SimCtx) (month fuel : ℕ) (s : SimState) (mm : ℕ),
      s.payoff.getD i none = some mm →
      (simLoop c month fuel s).payoff.getD i none = some mm) := by
  refine ⟨?_, ?_, fun c month fuel s mm h => simLoop_payoff_some c fuel month s i mm h⟩
  · intro h0 h1 snap hsnap
    by_cases hd : debts = []
    · rw [hd] at hsnap
      simp [simulate] at hsnap
    · rw [simulate_of_ne _ _ _ _ _ _ _ hd] at hsnap
      have hb0 : (initState debts).balances.getD i 0 = (debts.getD i default).balance := by
        simp only [initState]
        exact getD_map_balance debts i
      obtain ⟨-, hsnaps⟩ := simLoop_inactive _ M 1 (initState debts) i
        (by rw [hb0]; exact h0) (by rw [hb0]; exact h1)
      rcases hsnaps snap hsnap with h | h
      · simp [initState] at h
      · rw [h, hb0]
  · by_cases hd : debts = []
    · subst hd
      intro k j _ hj
      simp [simulate] at hj
    · rw [simulate_of_ne _ _ _ _ _ _ _ hd]
      exact simLoop_snap_persist _ M i 1 (initState debts)
        (by simp [initState])
        (by intro h; simp [initState] at h)
        (by intro k j _ hj; simp [initState] at hj)

/-- Witness for the amended C9 theorem: a debt entering at balance 1/200
(below the threshold) still shows exactly 1/200 in the second month's
snapshot, and a recorded payoff month survives further loop iterations. -/
theorem c9_inactive_debt_frozen_witness :
    ((simulate zDebts zIncs [] 0 0 .avalanche 2).1.getD 1 default).balances.getD 1 0 =
      (zDebts.getD 1 default).balance ∧
    (simLoop zAc 3 5 zAs2).payoff.getD 1 none = some 1 :=
  ⟨(c9_inactive_debt_frozen zDebts zIncs [] 0 0 .avalanche 2 1).1
      (by norm_num [zDebts]) (by norm_num [zDebts]) _
      (by rw [zAsim2]; exact getD_mem _ _ _ (by norm_num [zAs2])),
    (c9_inactive_debt_frozen zDebts zIncs [] 0 0 .avalanche 2 1).2.2 zAc 3 5 zAs2 1
      (by norm_num [zAs2])⟩

/-- Claim C10: simulating an empty debt list returns an empty timeline and
an empty payoff-events list, and for every input the returned events list is
sorted by non-decreasing payoff month. -/
theorem c10_empty_and_sorted_events (incomes : List Income)
    (future_inc : List FutureIncome) (exp_total extra_pct : ℚ) (strategy : Strategy)
    (M : ℕ) :
    simulate [] incomes future_inc exp_total extra_pct strategy M = ([], []) ∧
    ∀ debts : List Debt,
      List.Sorted (fun a b : Event => a.month ≤ b.month)
        (simulate debts incomes future_inc exp_total extra_pct strategy M).2 := by
  constructor
  · simp [simulate]
  · intro debts
    by_cases hd : debts = []
    · subst hd
      simp [simulate]
    · rw [simulate_of_ne _ _ _ _ _ _ _ hd]
      haveI : IsTotal Event (fun a b => a.month ≤ b.month) := ⟨fun a b => Nat.le_total _ _⟩
      haveI : IsTrans Event (fun a b => a.month ≤ b.month) :=
        ⟨fun a b c hab hbc => le_trans hab hbc⟩
      simp only [collectEvents]
      exact List.sorted_insertionSort _ _

end DebtAdvisor
